import Mathlib

/-!
# The `profiles/latest/cognitiveservices/face` re-export layer

Shallow embedding of
`vendor/github.com/Azure/azure-sdk-for-go/profiles/latest/cognitiveservices/face/models.go`.

The Go file imports the package `services/cognitiveservices/v1.0/face` under the
name `original` and re-exports its types, constants and functions.  The wrapped
package is a parameter of the embedding: a record `Original` holding every symbol
of `original` that `models.go` mentions.  A Go call is a function on an explicit
state that either returns a value or panics with a value.
-/

namespace face

/-- Go slice `[]α`, as the sequence of its elements. -/
abbrev Slice (α : Type) : Type := List α

/-- Go call with results of type `α`: started in a state, it ends in a state and
either returns a value (`Except.ok`) or panics with a value (`Except.error`). -/
abbrev Call (σ ε α : Type) : Type := σ → Except ε α × σ

/-- Types of the wrapped package `original` named in `models.go`. Their
declarations are outside this file, so each is a parameter. -/
structure OriginalTypes : Type 1 where
  AccessoryType : Type
  AttributeType : Type
  BlurLevel : Type
  ExposureLevel : Type
  FindSimilarMatchMode : Type
  Gender : Type
  GlassesType : Type
  HairColorType : Type
  NoiseLevel : Type
  OperationStatusType : Type
  RecognitionModel : Type
  SnapshotApplyMode : Type
  SnapshotObjectType : Type
  TrainingStatusType : Type
  APIError : Type
  Accessory : Type
  ApplySnapshotRequest : Type
  Attributes : Type
  BaseClient : Type
  Blur : Type
  Client : Type
  Coordinate : Type
  DetectedFace : Type
  Emotion : Type
  Error : Type
  Exposure : Type
  FacialHair : Type
  FindSimilarRequest : Type
  GroupRequest : Type
  GroupResult : Type
  Hair : Type
  HairColor : Type
  HeadPose : Type
  IdentifyCandidate : Type
  IdentifyRequest : Type
  IdentifyResult : Type
  ImageURL : Type
  Landmarks : Type
  LargeFaceList : Type
  LargeFaceListClient : Type
  LargePersonGroup : Type
  LargePersonGroupClient : Type
  LargePersonGroupPersonClient : Type
  List : Type
  ListClient : Type
  ListDetectedFace : Type
  ListIdentifyResult : Type
  ListLargeFaceList : Type
  ListLargePersonGroup : Type
  ListList : Type
  ListPersistedFace : Type
  ListPerson : Type
  ListPersonGroup : Type
  ListSimilarFace : Type
  ListSnapshot : Type
  Makeup : Type
  MetaDataContract : Type
  NameAndUserDataContract : Type
  Noise : Type
  Occlusion : Type
  OperationStatus : Type
  PersistedFace : Type
  Person : Type
  PersonGroup : Type
  PersonGroupClient : Type
  PersonGroupPersonClient : Type
  Rectangle : Type
  SimilarFace : Type
  Snapshot : Type
  SnapshotClient : Type
  TakeSnapshotRequest : Type
  TrainingStatus : Type
  UpdateFaceRequest : Type
  UpdateSnapshotRequest : Type
  VerifyFaceToFaceRequest : Type
  VerifyFaceToPersonRequest : Type
  VerifyResult : Type

/-- Constants of the wrapped package `original` named in `models.go`, each with
the enumerated type the const block gives it. -/
structure OriginalConsts extends OriginalTypes where
  Glasses : AccessoryType
  HeadWear : AccessoryType
  Mask : AccessoryType
  AttributeTypeAccessories : AttributeType
  AttributeTypeAge : AttributeType
  AttributeTypeBlur : AttributeType
  AttributeTypeEmotion : AttributeType
  AttributeTypeExposure : AttributeType
  AttributeTypeFacialHair : AttributeType
  AttributeTypeGender : AttributeType
  AttributeTypeGlasses : AttributeType
  AttributeTypeHair : AttributeType
  AttributeTypeHeadPose : AttributeType
  AttributeTypeMakeup : AttributeType
  AttributeTypeNoise : AttributeType
  AttributeTypeOcclusion : AttributeType
  AttributeTypeSmile : AttributeType
  High : BlurLevel
  Low : BlurLevel
  Medium : BlurLevel
  GoodExposure : ExposureLevel
  OverExposure : ExposureLevel
  UnderExposure : ExposureLevel
  MatchFace : FindSimilarMatchMode
  MatchPerson : FindSimilarMatchMode
  Female : Gender
  Male : Gender
  NoGlasses : GlassesType
  ReadingGlasses : GlassesType
  Sunglasses : GlassesType
  SwimmingGoggles : GlassesType
  Black : HairColorType
  Blond : HairColorType
  Brown : HairColorType
  Gray : HairColorType
  Other : HairColorType
  Red : HairColorType
  Unknown : HairColorType
  White : HairColorType
  NoiseLevelHigh : NoiseLevel
  NoiseLevelLow : NoiseLevel
  NoiseLevelMedium : NoiseLevel
  Failed : OperationStatusType
  Notstarted : OperationStatusType
  Running : OperationStatusType
  Succeeded : OperationStatusType
  Recognition01 : RecognitionModel
  Recognition02 : RecognitionModel
  CreateNew : SnapshotApplyMode
  SnapshotObjectTypeFaceList : SnapshotObjectType
  SnapshotObjectTypeLargeFaceList : SnapshotObjectType
  SnapshotObjectTypeLargePersonGroup : SnapshotObjectType
  SnapshotObjectTypePersonGroup : SnapshotObjectType
  TrainingStatusTypeFailed : TrainingStatusType
  TrainingStatusTypeNonstarted : TrainingStatusType
  TrainingStatusTypeRunning : TrainingStatusType
  TrainingStatusTypeSucceeded : TrainingStatusType

/-- Wrapped package `original`: its types, its constants and the functions
`models.go` calls, over a state `σ` and panic values `ε`. -/
structure Original (σ ε : Type) extends OriginalConsts where
  New : String → Call σ ε BaseClient
  NewClient : String → Call σ ε Client
  NewLargeFaceListClient : String → Call σ ε LargeFaceListClient
  NewLargePersonGroupClient : String → Call σ ε LargePersonGroupClient
  NewLargePersonGroupPersonClient : String → Call σ ε LargePersonGroupPersonClient
  NewListClient : String → Call σ ε ListClient
  NewPersonGroupClient : String → Call σ ε PersonGroupClient
  NewPersonGroupPersonClient : String → Call σ ε PersonGroupPersonClient
  NewSnapshotClient : String → Call σ ε SnapshotClient
  NewWithoutDefaults : String → Call σ ε BaseClient
  PossibleAccessoryTypeValues : Call σ ε (Slice AccessoryType)
  PossibleAttributeTypeValues : Call σ ε (Slice AttributeType)
  PossibleBlurLevelValues : Call σ ε (Slice BlurLevel)
  PossibleExposureLevelValues : Call σ ε (Slice ExposureLevel)
  PossibleFindSimilarMatchModeValues : Call σ ε (Slice FindSimilarMatchMode)
  PossibleGenderValues : Call σ ε (Slice Gender)
  PossibleGlassesTypeValues : Call σ ε (Slice GlassesType)
  PossibleHairColorTypeValues : Call σ ε (Slice HairColorType)
  PossibleNoiseLevelValues : Call σ ε (Slice NoiseLevel)
  PossibleOperationStatusTypeValues : Call σ ε (Slice OperationStatusType)
  PossibleRecognitionModelValues : Call σ ε (Slice RecognitionModel)
  PossibleSnapshotApplyModeValues : Call σ ε (Slice SnapshotApplyMode)
  PossibleSnapshotObjectTypeValues : Call σ ε (Slice SnapshotObjectType)
  PossibleTrainingStatusTypeValues : Call σ ε (Slice TrainingStatusType)
  UserAgent : Call σ ε String
  Version : Call σ ε String

/-! ## The declarations of `models.go`, in source order -/

/-- Alias `type AccessoryType = original.AccessoryType`. -/
abbrev AccessoryType {σ ε : Type} (original : Original σ ε) : Type := original.AccessoryType

/-- Constant `Glasses AccessoryType = original.Glasses`. -/
def Glasses {σ ε : Type} (original : Original σ ε) : AccessoryType original := original.Glasses

/-- Constant `HeadWear AccessoryType = original.HeadWear`. -/
def HeadWear {σ ε : Type} (original : Original σ ε) : AccessoryType original := original.HeadWear

/-- Constant `Mask AccessoryType = original.Mask`. -/
def Mask {σ ε : Type} (original : Original σ ε) : AccessoryType original := original.Mask

/-- Alias `type AttributeType = original.AttributeType`. -/
abbrev AttributeType {σ ε : Type} (original : Original σ ε) : Type := original.AttributeType

/-- Constant `AttributeTypeAccessories AttributeType = original.AttributeTypeAccessories`. -/
def AttributeTypeAccessories {σ ε : Type} (original : Original σ ε) : AttributeType original := original.AttributeTypeAccessories

/-- Constant `AttributeTypeAge AttributeType = original.AttributeTypeAge`. -/
def AttributeTypeAge {σ ε : Type} (original : Original σ ε) : AttributeType original := original.AttributeTypeAge

/-- Constant `AttributeTypeBlur AttributeType = original.AttributeTypeBlur`. -/
def AttributeTypeBlur {σ ε : Type} (original : Original σ ε) : AttributeType original := original.AttributeTypeBlur

/-- Constant `AttributeTypeEmotion AttributeType = original.AttributeTypeEmotion`. -/
def AttributeTypeEmotion {σ ε : Type} (original : Original σ ε) : AttributeType original := original.AttributeTypeEmotion

/-- Constant `AttributeTypeExposure AttributeType = original.AttributeTypeExposure`. -/
def AttributeTypeExposure {σ ε : Type} (original : Original σ ε) : AttributeType original := original.AttributeTypeExposure

/-- Constant `AttributeTypeFacialHair AttributeType = original.AttributeTypeFacialHair`. -/
def AttributeTypeFacialHair {σ ε : Type} (original : Original σ ε) : AttributeType original := original.AttributeTypeFacialHair

/-- Constant `AttributeTypeGender AttributeType = original.AttributeTypeGender`. -/
def AttributeTypeGender {σ ε : Type} (original : Original σ ε) : AttributeType original := original.AttributeTypeGender

/-- Constant `AttributeTypeGlasses AttributeType = original.AttributeTypeGlasses`. -/
def AttributeTypeGlasses {σ ε : Type} (original : Original σ ε) : AttributeType original := original.AttributeTypeGlasses

/-- Constant `AttributeTypeHair AttributeType = original.AttributeTypeHair`. -/
def AttributeTypeHair {σ ε : Type} (original : Original σ ε) : AttributeType original := original.AttributeTypeHair

/-- Constant `AttributeTypeHeadPose AttributeType = original.AttributeTypeHeadPose`. -/
def AttributeTypeHeadPose {σ ε : Type} (original : Original σ ε) : AttributeType original := original.AttributeTypeHeadPose

/-- Constant `AttributeTypeMakeup AttributeType = original.AttributeTypeMakeup`. -/
def AttributeTypeMakeup {σ ε : Type} (original : Original σ ε) : AttributeType original := original.AttributeTypeMakeup

/-- Constant `AttributeTypeNoise AttributeType = original.AttributeTypeNoise`. -/
def AttributeTypeNoise {σ ε : Type} (original : Original σ ε) : AttributeType original := original.AttributeTypeNoise

/-- Constant `AttributeTypeOcclusion AttributeType = original.AttributeTypeOcclusion`. -/
def AttributeTypeOcclusion {σ ε : Type} (original : Original σ ε) : AttributeType original := original.AttributeTypeOcclusion

/-- Constant `AttributeTypeSmile AttributeType = original.AttributeTypeSmile`. -/
def AttributeTypeSmile {σ ε : Type} (original : Original σ ε) : AttributeType original := original.AttributeTypeSmile

/-- Alias `type BlurLevel = original.BlurLevel`. -/
abbrev BlurLevel {σ ε : Type} (original : Original σ ε) : Type := original.BlurLevel

/-- Constant `High BlurLevel = original.High`. -/
def High {σ ε : Type} (original : Original σ ε) : BlurLevel original := original.High

/-- Constant `Low BlurLevel = original.Low`. -/
def Low {σ ε : Type} (original : Original σ ε) : BlurLevel original := original.Low

/-- Constant `Medium BlurLevel = original.Medium`. -/
def Medium {σ ε : Type} (original : Original σ ε) : BlurLevel original := original.Medium

/-- Alias `type ExposureLevel = original.ExposureLevel`. -/
abbrev ExposureLevel {σ ε : Type} (original : Original σ ε) : Type := original.ExposureLevel

/-- Constant `GoodExposure ExposureLevel = original.GoodExposure`. -/
def GoodExposure {σ ε : Type} (original : Original σ ε) : ExposureLevel original := original.GoodExposure

/-- Constant `OverExposure ExposureLevel = original.OverExposure`. -/
def OverExposure {σ ε : Type} (original : Original σ ε) : ExposureLevel original := original.OverExposure

/-- Constant `UnderExposure ExposureLevel = original.UnderExposure`. -/
def UnderExposure {σ ε : Type} (original : Original σ ε) : ExposureLevel original := original.UnderExposure

/-- Alias `type FindSimilarMatchMode = original.FindSimilarMatchMode`. -/
abbrev FindSimilarMatchMode {σ ε : Type} (original : Original σ ε) : Type := original.FindSimilarMatchMode

/-- Constant `MatchFace FindSimilarMatchMode = original.MatchFace`. -/
def MatchFace {σ ε : Type} (original : Original σ ε) : FindSimilarMatchMode original := original.MatchFace

/-- Constant `MatchPerson FindSimilarMatchMode = original.MatchPerson`. -/
def MatchPerson {σ ε : Type} (original : Original σ ε) : FindSimilarMatchMode original := original.MatchPerson

/-- Alias `type Gender = original.Gender`. -/
abbrev Gender {σ ε : Type} (original : Original σ ε) : Type := original.Gender

/-- Constant `Female Gender = original.Female`. -/
def Female {σ ε : Type} (original : Original σ ε) : Gender original := original.Female

/-- Constant `Male Gender = original.Male`. -/
def Male {σ ε : Type} (original : Original σ ε) : Gender original := original.Male

/-- Alias `type GlassesType = original.GlassesType`. -/
abbrev GlassesType {σ ε : Type} (original : Original σ ε) : Type := original.GlassesType

/-- Constant `NoGlasses GlassesType = original.NoGlasses`. -/
def NoGlasses {σ ε : Type} (original : Original σ ε) : GlassesType original := original.NoGlasses

/-- Constant `ReadingGlasses GlassesType = original.ReadingGlasses`. -/
def ReadingGlasses {σ ε : Type} (original : Original σ ε) : GlassesType original := original.ReadingGlasses

/-- Constant `Sunglasses GlassesType = original.Sunglasses`. -/
def Sunglasses {σ ε : Type} (original : Original σ ε) : GlassesType original := original.Sunglasses

/-- Constant `SwimmingGoggles GlassesType = original.SwimmingGoggles`. -/
def SwimmingGoggles {σ ε : Type} (original : Original σ ε) : GlassesType original := original.SwimmingGoggles

/-- Alias `type HairColorType = original.HairColorType`. -/
abbrev HairColorType {σ ε : Type} (original : Original σ ε) : Type := original.HairColorType

/-- Constant `Black HairColorType = original.Black`. -/
def Black {σ ε : Type} (original : Original σ ε) : HairColorType original := original.Black

/-- Constant `Blond HairColorType = original.Blond`. -/
def Blond {σ ε : Type} (original : Original σ ε) : HairColorType original := original.Blond

/-- Constant `Brown HairColorType = original.Brown`. -/
def Brown {σ ε : Type} (original : Original σ ε) : HairColorType original := original.Brown

/-- Constant `Gray HairColorType = original.Gray`. -/
def Gray {σ ε : Type} (original : Original σ ε) : HairColorType original := original.Gray

/-- Constant `Other HairColorType = original.Other`. -/
def Other {σ ε : Type} (original : Original σ ε) : HairColorType original := original.Other

/-- Constant `Red HairColorType = original.Red`. -/
def Red {σ ε : Type} (original : Original σ ε) : HairColorType original := original.Red

/-- Constant `Unknown HairColorType = original.Unknown`. -/
def Unknown {σ ε : Type} (original : Original σ ε) : HairColorType original := original.Unknown

/-- Constant `White HairColorType = original.White`. -/
def White {σ ε : Type} (original : Original σ ε) : HairColorType original := original.White

/-- Alias `type NoiseLevel = original.NoiseLevel`. -/
abbrev NoiseLevel {σ ε : Type} (original : Original σ ε) : Type := original.NoiseLevel

/-- Constant `NoiseLevelHigh NoiseLevel = original.NoiseLevelHigh`. -/
def NoiseLevelHigh {σ ε : Type} (original : Original σ ε) : NoiseLevel original := original.NoiseLevelHigh

/-- Constant `NoiseLevelLow NoiseLevel = original.NoiseLevelLow`. -/
def NoiseLevelLow {σ ε : Type} (original : Original σ ε) : NoiseLevel original := original.NoiseLevelLow

/-- Constant `NoiseLevelMedium NoiseLevel = original.NoiseLevelMedium`. -/
def NoiseLevelMedium {σ ε : Type} (original : Original σ ε) : NoiseLevel original := original.NoiseLevelMedium

/-- Alias `type OperationStatusType = original.OperationStatusType`. -/
abbrev OperationStatusType {σ ε : Type} (original : Original σ ε) : Type := original.OperationStatusType

/-- Constant `Failed OperationStatusType = original.Failed`. -/
def Failed {σ ε : Type} (original : Original σ ε) : OperationStatusType original := original.Failed

/-- Constant `Notstarted OperationStatusType = original.Notstarted`. -/
def Notstarted {σ ε : Type} (original : Original σ ε) : OperationStatusType original := original.Notstarted

/-- Constant `Running OperationStatusType = original.Running`. -/
def Running {σ ε : Type} (original : Original σ ε) : OperationStatusType original := original.Running

/-- Constant `Succeeded OperationStatusType = original.Succeeded`. -/
def Succeeded {σ ε : Type} (original : Original σ ε) : OperationStatusType original := original.Succeeded

/-- Alias `type RecognitionModel = original.RecognitionModel`. -/
abbrev RecognitionModel {σ ε : Type} (original : Original σ ε) : Type := original.RecognitionModel

/-- Constant `Recognition01 RecognitionModel = original.Recognition01`. -/
def Recognition01 {σ ε : Type} (original : Original σ ε) : RecognitionModel original := original.Recognition01

/-- Constant `Recognition02 RecognitionModel = original.Recognition02`. -/
def Recognition02 {σ ε : Type} (original : Original σ ε) : RecognitionModel original := original.Recognition02

/-- Alias `type SnapshotApplyMode = original.SnapshotApplyMode`. -/
abbrev SnapshotApplyMode {σ ε : Type} (original : Original σ ε) : Type := original.SnapshotApplyMode

/-- Constant `CreateNew SnapshotApplyMode = original.CreateNew`. -/
def CreateNew {σ ε : Type} (original : Original σ ε) : SnapshotApplyMode original := original.CreateNew

/-- Alias `type SnapshotObjectType = original.SnapshotObjectType`. -/
abbrev SnapshotObjectType {σ ε : Type} (original : Original σ ε) : Type := original.SnapshotObjectType

/-- Constant `SnapshotObjectTypeFaceList SnapshotObjectType = original.SnapshotObjectTypeFaceList`. -/
def SnapshotObjectTypeFaceList {σ ε : Type} (original : Original σ ε) : SnapshotObjectType original := original.SnapshotObjectTypeFaceList

/-- Constant `SnapshotObjectTypeLargeFaceList SnapshotObjectType = original.SnapshotObjectTypeLargeFaceList`. -/
def SnapshotObjectTypeLargeFaceList {σ ε : Type} (original : Original σ ε) : SnapshotObjectType original := original.SnapshotObjectTypeLargeFaceList

/-- Constant `SnapshotObjectTypeLargePersonGroup SnapshotObjectType = original.SnapshotObjectTypeLargePersonGroup`. -/
def SnapshotObjectTypeLargePersonGroup {σ ε : Type} (original : Original σ ε) : SnapshotObjectType original := original.SnapshotObjectTypeLargePersonGroup

/-- Constant `SnapshotObjectTypePersonGroup SnapshotObjectType = original.SnapshotObjectTypePersonGroup`. -/
def SnapshotObjectTypePersonGroup {σ ε : Type} (original : Original σ ε) : SnapshotObjectType original := original.SnapshotObjectTypePersonGroup

/-- Alias `type TrainingStatusType = original.TrainingStatusType`. -/
abbrev TrainingStatusType {σ ε : Type} (original : Original σ ε) : Type := original.TrainingStatusType

/-- Constant `TrainingStatusTypeFailed TrainingStatusType = original.TrainingStatusTypeFailed`. -/
def TrainingStatusTypeFailed {σ ε : Type} (original : Original σ ε) : TrainingStatusType original := original.TrainingStatusTypeFailed

/-- Constant `TrainingStatusTypeNonstarted TrainingStatusType = original.TrainingStatusTypeNonstarted`. -/
def TrainingStatusTypeNonstarted {σ ε : Type} (original : Original σ ε) : TrainingStatusType original := original.TrainingStatusTypeNonstarted

/-- Constant `TrainingStatusTypeRunning TrainingStatusType = original.TrainingStatusTypeRunning`. -/
def TrainingStatusTypeRunning {σ ε : Type} (original : Original σ ε) : TrainingStatusType original := original.TrainingStatusTypeRunning

/-- Constant `TrainingStatusTypeSucceeded TrainingStatusType = original.TrainingStatusTypeSucceeded`. -/
def TrainingStatusTypeSucceeded {σ ε : Type} (original : Original σ ε) : TrainingStatusType original := original.TrainingStatusTypeSucceeded

/-- Alias `type APIError = original.APIError`. -/
abbrev APIError {σ ε : Type} (original : Original σ ε) : Type := original.APIError

/-- Alias `type Accessory = original.Accessory`. -/
abbrev Accessory {σ ε : Type} (original : Original σ ε) : Type := original.Accessory

/-- Alias `type ApplySnapshotRequest = original.ApplySnapshotRequest`. -/
abbrev ApplySnapshotRequest {σ ε : Type} (original : Original σ ε) : Type := original.ApplySnapshotRequest

/-- Alias `type Attributes = original.Attributes`. -/
abbrev Attributes {σ ε : Type} (original : Original σ ε) : Type := original.Attributes

/-- Alias `type BaseClient = original.BaseClient`. -/
abbrev BaseClient {σ ε : Type} (original : Original σ ε) : Type := original.BaseClient

/-- Alias `type Blur = original.Blur`. -/
abbrev Blur {σ ε : Type} (original : Original σ ε) : Type := original.Blur

/-- Alias `type Client = original.Client`. -/
abbrev Client {σ ε : Type} (original : Original σ ε) : Type := original.Client

/-- Alias `type Coordinate = original.Coordinate`. -/
abbrev Coordinate {σ ε : Type} (original : Original σ ε) : Type := original.Coordinate

/-- Alias `type DetectedFace = original.DetectedFace`. -/
abbrev DetectedFace {σ ε : Type} (original : Original σ ε) : Type := original.DetectedFace

/-- Alias `type Emotion = original.Emotion`. -/
abbrev Emotion {σ ε : Type} (original : Original σ ε) : Type := original.Emotion

/-- Alias `type Error = original.Error`. -/
abbrev Error {σ ε : Type} (original : Original σ ε) : Type := original.Error

/-- Alias `type Exposure = original.Exposure`. -/
abbrev Exposure {σ ε : Type} (original : Original σ ε) : Type := original.Exposure

/-- Alias `type FacialHair = original.FacialHair`. -/
abbrev FacialHair {σ ε : Type} (original : Original σ ε) : Type := original.FacialHair

/-- Alias `type FindSimilarRequest = original.FindSimilarRequest`. -/
abbrev FindSimilarRequest {σ ε : Type} (original : Original σ ε) : Type := original.FindSimilarRequest

/-- Alias `type GroupRequest = original.GroupRequest`. -/
abbrev GroupRequest {σ ε : Type} (original : Original σ ε) : Type := original.GroupRequest

/-- Alias `type GroupResult = original.GroupResult`. -/
abbrev GroupResult {σ ε : Type} (original : Original σ ε) : Type := original.GroupResult

/-- Alias `type Hair = original.Hair`. -/
abbrev Hair {σ ε : Type} (original : Original σ ε) : Type := original.Hair

/-- Alias `type HairColor = original.HairColor`. -/
abbrev HairColor {σ ε : Type} (original : Original σ ε) : Type := original.HairColor

/-- Alias `type HeadPose = original.HeadPose`. -/
abbrev HeadPose {σ ε : Type} (original : Original σ ε) : Type := original.HeadPose

/-- Alias `type IdentifyCandidate = original.IdentifyCandidate`. -/
abbrev IdentifyCandidate {σ ε : Type} (original : Original σ ε) : Type := original.IdentifyCandidate

/-- Alias `type IdentifyRequest = original.IdentifyRequest`. -/
abbrev IdentifyRequest {σ ε : Type} (original : Original σ ε) : Type := original.IdentifyRequest

/-- Alias `type IdentifyResult = original.IdentifyResult`. -/
abbrev IdentifyResult {σ ε : Type} (original : Original σ ε) : Type := original.IdentifyResult

/-- Alias `type ImageURL = original.ImageURL`. -/
abbrev ImageURL {σ ε : Type} (original : Original σ ε) : Type := original.ImageURL

/-- Alias `type Landmarks = original.Landmarks`. -/
abbrev Landmarks {σ ε : Type} (original : Original σ ε) : Type := original.Landmarks

/-- Alias `type LargeFaceList = original.LargeFaceList`. -/
abbrev LargeFaceList {σ ε : Type} (original : Original σ ε) : Type := original.LargeFaceList

/-- Alias `type LargeFaceListClient = original.LargeFaceListClient`. -/
abbrev LargeFaceListClient {σ ε : Type} (original : Original σ ε) : Type := original.LargeFaceListClient

/-- Alias `type LargePersonGroup = original.LargePersonGroup`. -/
abbrev LargePersonGroup {σ ε : Type} (original : Original σ ε) : Type := original.LargePersonGroup

/-- Alias `type LargePersonGroupClient = original.LargePersonGroupClient`. -/
abbrev LargePersonGroupClient {σ ε : Type} (original : Original σ ε) : Type := original.LargePersonGroupClient

/-- Alias `type LargePersonGroupPersonClient = original.LargePersonGroupPersonClient`. -/
abbrev LargePersonGroupPersonClient {σ ε : Type} (original : Original σ ε) : Type := original.LargePersonGroupPersonClient

/-- Alias `type List = original.List`. -/
abbrev List {σ ε : Type} (original : Original σ ε) : Type := original.List

/-- Alias `type ListClient = original.ListClient`. -/
abbrev ListClient {σ ε : Type} (original : Original σ ε) : Type := original.ListClient

/-- Alias `type ListDetectedFace = original.ListDetectedFace`. -/
abbrev ListDetectedFace {σ ε : Type} (original : Original σ ε) : Type := original.ListDetectedFace

/-- Alias `type ListIdentifyResult = original.ListIdentifyResult`. -/
abbrev ListIdentifyResult {σ ε : Type} (original : Original σ ε) : Type := original.ListIdentifyResult

/-- Alias `type ListLargeFaceList = original.ListLargeFaceList`. -/
abbrev ListLargeFaceList {σ ε : Type} (original : Original σ ε) : Type := original.ListLargeFaceList

/-- Alias `type ListLargePersonGroup = original.ListLargePersonGroup`. -/
abbrev ListLargePersonGroup {σ ε : Type} (original : Original σ ε) : Type := original.ListLargePersonGroup

/-- Alias `type ListList = original.ListList`. -/
abbrev ListList {σ ε : Type} (original : Original σ ε) : Type := original.ListList

/-- Alias `type ListPersistedFace = original.ListPersistedFace`. -/
abbrev ListPersistedFace {σ ε : Type} (original : Original σ ε) : Type := original.ListPersistedFace

/-- Alias `type ListPerson = original.ListPerson`. -/
abbrev ListPerson {σ ε : Type} (original : Original σ ε) : Type := original.ListPerson

/-- Alias `type ListPersonGroup = original.ListPersonGroup`. -/
abbrev ListPersonGroup {σ ε : Type} (original : Original σ ε) : Type := original.ListPersonGroup

/-- Alias `type ListSimilarFace = original.ListSimilarFace`. -/
abbrev ListSimilarFace {σ ε : Type} (original : Original σ ε) : Type := original.ListSimilarFace

/-- Alias `type ListSnapshot = original.ListSnapshot`. -/
abbrev ListSnapshot {σ ε : Type} (original : Original σ ε) : Type := original.ListSnapshot

/-- Alias `type Makeup = original.Makeup`. -/
abbrev Makeup {σ ε : Type} (original : Original σ ε) : Type := original.Makeup

/-- Alias `type MetaDataContract = original.MetaDataContract`. -/
abbrev MetaDataContract {σ ε : Type} (original : Original σ ε) : Type := original.MetaDataContract

/-- Alias `type NameAndUserDataContract = original.NameAndUserDataContract`. -/
abbrev NameAndUserDataContract {σ ε : Type} (original : Original σ ε) : Type := original.NameAndUserDataContract

/-- Alias `type Noise = original.Noise`. -/
abbrev Noise {σ ε : Type} (original : Original σ ε) : Type := original.Noise

/-- Alias `type Occlusion = original.Occlusion`. -/
abbrev Occlusion {σ ε : Type} (original : Original σ ε) : Type := original.Occlusion

/-- Alias `type OperationStatus = original.OperationStatus`. -/
abbrev OperationStatus {σ ε : Type} (original : Original σ ε) : Type := original.OperationStatus

/-- Alias `type PersistedFace = original.PersistedFace`. -/
abbrev PersistedFace {σ ε : Type} (original : Original σ ε) : Type := original.PersistedFace

/-- Alias `type Person = original.Person`. -/
abbrev Person {σ ε : Type} (original : Original σ ε) : Type := original.Person

/-- Alias `type PersonGroup = original.PersonGroup`. -/
abbrev PersonGroup {σ ε : Type} (original : Original σ ε) : Type := original.PersonGroup

/-- Alias `type PersonGroupClient = original.PersonGroupClient`. -/
abbrev PersonGroupClient {σ ε : Type} (original : Original σ ε) : Type := original.PersonGroupClient

/-- Alias `type PersonGroupPersonClient = original.PersonGroupPersonClient`. -/
abbrev PersonGroupPersonClient {σ ε : Type} (original : Original σ ε) : Type := original.PersonGroupPersonClient

/-- Alias `type Rectangle = original.Rectangle`. -/
abbrev Rectangle {σ ε : Type} (original : Original σ ε) : Type := original.Rectangle

/-- Alias `type SimilarFace = original.SimilarFace`. -/
abbrev SimilarFace {σ ε : Type} (original : Original σ ε) : Type := original.SimilarFace

/-- Alias `type Snapshot = original.Snapshot`. -/
abbrev Snapshot {σ ε : Type} (original : Original σ ε) : Type := original.Snapshot

/-- Alias `type SnapshotClient = original.SnapshotClient`. -/
abbrev SnapshotClient {σ ε : Type} (original : Original σ ε) : Type := original.SnapshotClient

/-- Alias `type TakeSnapshotRequest = original.TakeSnapshotRequest`. -/
abbrev TakeSnapshotRequest {σ ε : Type} (original : Original σ ε) : Type := original.TakeSnapshotRequest

/-- Alias `type TrainingStatus = original.TrainingStatus`. -/
abbrev TrainingStatus {σ ε : Type} (original : Original σ ε) : Type := original.TrainingStatus

/-- Alias `type UpdateFaceRequest = original.UpdateFaceRequest`. -/
abbrev UpdateFaceRequest {σ ε : Type} (original : Original σ ε) : Type := original.UpdateFaceRequest

/-- Alias `type UpdateSnapshotRequest = original.UpdateSnapshotRequest`. -/
abbrev UpdateSnapshotRequest {σ ε : Type} (original : Original σ ε) : Type := original.UpdateSnapshotRequest

/-- Alias `type VerifyFaceToFaceRequest = original.VerifyFaceToFaceRequest`. -/
abbrev VerifyFaceToFaceRequest {σ ε : Type} (original : Original σ ε) : Type := original.VerifyFaceToFaceRequest

/-- Alias `type VerifyFaceToPersonRequest = original.VerifyFaceToPersonRequest`. -/
abbrev VerifyFaceToPersonRequest {σ ε : Type} (original : Original σ ε) : Type := original.VerifyFaceToPersonRequest

/-- Alias `type VerifyResult = original.VerifyResult`. -/
abbrev VerifyResult {σ ε : Type} (original : Original σ ε) : Type := original.VerifyResult

/-- Go `func New(endpoint string) BaseClient`. -/
def New {σ ε : Type} (original : Original σ ε) (endpoint : String) :
    Call σ ε (BaseClient original) :=
  original.New endpoint

/-- Go `func NewClient(endpoint string) Client`. -/
def NewClient {σ ε : Type} (original : Original σ ε) (endpoint : String) :
    Call σ ε (Client original) :=
  original.NewClient endpoint

/-- Go `func NewLargeFaceListClient(endpoint string) LargeFaceListClient`. -/
def NewLargeFaceListClient {σ ε : Type} (original : Original σ ε) (endpoint : String) :
    Call σ ε (LargeFaceListClient original) :=
  original.NewLargeFaceListClient endpoint

/-- Go `func NewLargePersonGroupClient(endpoint string) LargePersonGroupClient`. -/
def NewLargePersonGroupClient {σ ε : Type} (original : Original σ ε) (endpoint : String) :
    Call σ ε (LargePersonGroupClient original) :=
  original.NewLargePersonGroupClient endpoint

/-- Go `func NewLargePersonGroupPersonClient(endpoint string) LargePersonGroupPersonClient`. -/
def NewLargePersonGroupPersonClient {σ ε : Type} (original : Original σ ε) (endpoint : String) :
    Call σ ε (LargePersonGroupPersonClient original) :=
  original.NewLargePersonGroupPersonClient endpoint

/-- Go `func NewListClient(endpoint string) ListClient`. -/
def NewListClient {σ ε : Type} (original : Original σ ε) (endpoint : String) :
    Call σ ε (ListClient original) :=
  original.NewListClient endpoint

/-- Go `func NewPersonGroupClient(endpoint string) PersonGroupClient`. -/
def NewPersonGroupClient {σ ε : Type} (original : Original σ ε) (endpoint : String) :
    Call σ ε (PersonGroupClient original) :=
  original.NewPersonGroupClient endpoint

/-- Go `func NewPersonGroupPersonClient(endpoint string) PersonGroupPersonClient`. -/
def NewPersonGroupPersonClient {σ ε : Type} (original : Original σ ε) (endpoint : String) :
    Call σ ε (PersonGroupPersonClient original) :=
  original.NewPersonGroupPersonClient endpoint

/-- Go `func NewSnapshotClient(endpoint string) SnapshotClient`. -/
def NewSnapshotClient {σ ε : Type} (original : Original σ ε) (endpoint : String) :
    Call σ ε (SnapshotClient original) :=
  original.NewSnapshotClient endpoint

/-- Go `func NewWithoutDefaults(endpoint string) BaseClient`. -/
def NewWithoutDefaults {σ ε : Type} (original : Original σ ε) (endpoint : String) :
    Call σ ε (BaseClient original) :=
  original.NewWithoutDefaults endpoint

/-- Go `func PossibleAccessoryTypeValues() []AccessoryType`. -/
def PossibleAccessoryTypeValues {σ ε : Type} (original : Original σ ε) :
    Call σ ε (Slice (AccessoryType original)) :=
  original.PossibleAccessoryTypeValues

/-- Go `func PossibleAttributeTypeValues() []AttributeType`. -/
def PossibleAttributeTypeValues {σ ε : Type} (original : Original σ ε) :
    Call σ ε (Slice (AttributeType original)) :=
  original.PossibleAttributeTypeValues

/-- Go `func PossibleBlurLevelValues() []BlurLevel`. -/
def PossibleBlurLevelValues {σ ε : Type} (original : Original σ ε) :
    Call σ ε (Slice (BlurLevel original)) :=
  original.PossibleBlurLevelValues

/-- Go `func PossibleExposureLevelValues() []ExposureLevel`. -/
def PossibleExposureLevelValues {σ ε : Type} (original : Original σ ε) :
    Call σ ε (Slice (ExposureLevel original)) :=
  original.PossibleExposureLevelValues

/-- Go `func PossibleFindSimilarMatchModeValues() []FindSimilarMatchMode`. -/
def PossibleFindSimilarMatchModeValues {σ ε : Type} (original : Original σ ε) :
    Call σ ε (Slice (FindSimilarMatchMode original)) :=
  original.PossibleFindSimilarMatchModeValues

/-- Go `func PossibleGenderValues() []Gender`. -/
def PossibleGenderValues {σ ε : Type} (original : Original σ ε) :
    Call σ ε (Slice (Gender original)) :=
  original.PossibleGenderValues

/-- Go `func PossibleGlassesTypeValues() []GlassesType`. -/
def PossibleGlassesTypeValues {σ ε : Type} (original : Original σ ε) :
    Call σ ε (Slice (GlassesType original)) :=
  original.PossibleGlassesTypeValues

/-- Go `func PossibleHairColorTypeValues() []HairColorType`. -/
def PossibleHairColorTypeValues {σ ε : Type} (original : Original σ ε) :
    Call σ ε (Slice (HairColorType original)) :=
  original.PossibleHairColorTypeValues

/-- Go `func PossibleNoiseLevelValues() []NoiseLevel`. -/
def PossibleNoiseLevelValues {σ ε : Type} (original : Original σ ε) :
    Call σ ε (Slice (NoiseLevel original)) :=
  original.PossibleNoiseLevelValues

/-- Go `func PossibleOperationStatusTypeValues() []OperationStatusType`. -/
def PossibleOperationStatusTypeValues {σ ε : Type} (original : Original σ ε) :
    Call σ ε (Slice (OperationStatusType original)) :=
  original.PossibleOperationStatusTypeValues

/-- Go `func PossibleRecognitionModelValues() []RecognitionModel`. -/
def PossibleRecognitionModelValues {σ ε : Type} (original : Original σ ε) :
    Call σ ε (Slice (RecognitionModel original)) :=
  original.PossibleRecognitionModelValues

/-- Go `func PossibleSnapshotApplyModeValues() []SnapshotApplyMode`. -/
def PossibleSnapshotApplyModeValues {σ ε : Type} (original : Original σ ε) :
    Call σ ε (Slice (SnapshotApplyMode original)) :=
  original.PossibleSnapshotApplyModeValues

/-- Go `func PossibleSnapshotObjectTypeValues() []SnapshotObjectType`. -/
def PossibleSnapshotObjectTypeValues {σ ε : Type} (original : Original σ ε) :
    Call σ ε (Slice (SnapshotObjectType original)) :=
  original.PossibleSnapshotObjectTypeValues

/-- Go `func PossibleTrainingStatusTypeValues() []TrainingStatusType`. -/
def PossibleTrainingStatusTypeValues {σ ε : Type} (original : Original σ ε) :
    Call σ ε (Slice (TrainingStatusType original)) :=
  original.PossibleTrainingStatusTypeValues

/-- Go `func UserAgent() string`: the wrapped call is evaluated first; when it
returns, the literal is appended to its result; when it panics, the panic
propagates. -/
def UserAgent {σ ε : Type} (original : Original σ ε) : Call σ ε String := fun s =>
  match original.UserAgent s with
  | (Except.ok u, s1) => (Except.ok (u ++ " profiles/latest"), s1)
  | (Except.error p, s1) => (Except.error p, s1)

/-- Go `func Version() string`. -/
def Version {σ ε : Type} (original : Original σ ε) : Call σ ε String :=
  original.Version

/-! ## Observing the layer: call recording and a concrete wrapped package -/

/-- One call into the wrapped package: the name of the function called and the
string arguments it received. -/
structure CallRecord where
  name : String
  args : Slice String
deriving DecidableEq, Repr

/-- Run a wrapped call on the first component of the state and append its record
to the log kept in the second component. -/
def recorded {σ ε α : Type} (name : String) (args : Slice String) (call : Call σ ε α) :
    Call (σ × Slice CallRecord) ε α := fun st =>
  ((call st.1).1, ((call st.1).2, st.2 ++ [CallRecord.mk name args]))

/-- Wrapped package with every function recording its own call: same types and
constants, state extended with the log of calls made so far. -/
def Original.traced {σ ε : Type} (original : Original σ ε) :
    Original (σ × Slice CallRecord) ε where
  toOriginalConsts := original.toOriginalConsts
  New := fun endpoint => recorded "New" [endpoint] (original.New endpoint)
  NewClient := fun endpoint => recorded "NewClient" [endpoint] (original.NewClient endpoint)
  NewLargeFaceListClient := fun endpoint => recorded "NewLargeFaceListClient" [endpoint] (original.NewLargeFaceListClient endpoint)
  NewLargePersonGroupClient := fun endpoint => recorded "NewLargePersonGroupClient" [endpoint] (original.NewLargePersonGroupClient endpoint)
  NewLargePersonGroupPersonClient := fun endpoint => recorded "NewLargePersonGroupPersonClient" [endpoint] (original.NewLargePersonGroupPersonClient endpoint)
  NewListClient := fun endpoint => recorded "NewListClient" [endpoint] (original.NewListClient endpoint)
  NewPersonGroupClient := fun endpoint => recorded "NewPersonGroupClient" [endpoint] (original.NewPersonGroupClient endpoint)
  NewPersonGroupPersonClient := fun endpoint => recorded "NewPersonGroupPersonClient" [endpoint] (original.NewPersonGroupPersonClient endpoint)
  NewSnapshotClient := fun endpoint => recorded "NewSnapshotClient" [endpoint] (original.NewSnapshotClient endpoint)
  NewWithoutDefaults := fun endpoint => recorded "NewWithoutDefaults" [endpoint] (original.NewWithoutDefaults endpoint)
  PossibleAccessoryTypeValues := recorded "PossibleAccessoryTypeValues" [] original.PossibleAccessoryTypeValues
  PossibleAttributeTypeValues := recorded "PossibleAttributeTypeValues" [] original.PossibleAttributeTypeValues
  PossibleBlurLevelValues := recorded "PossibleBlurLevelValues" [] original.PossibleBlurLevelValues
  PossibleExposureLevelValues := recorded "PossibleExposureLevelValues" [] original.PossibleExposureLevelValues
  PossibleFindSimilarMatchModeValues := recorded "PossibleFindSimilarMatchModeValues" [] original.PossibleFindSimilarMatchModeValues
  PossibleGenderValues := recorded "PossibleGenderValues" [] original.PossibleGenderValues
  PossibleGlassesTypeValues := recorded "PossibleGlassesTypeValues" [] original.PossibleGlassesTypeValues
  PossibleHairColorTypeValues := recorded "PossibleHairColorTypeValues" [] original.PossibleHairColorTypeValues
  PossibleNoiseLevelValues := recorded "PossibleNoiseLevelValues" [] original.PossibleNoiseLevelValues
  PossibleOperationStatusTypeValues := recorded "PossibleOperationStatusTypeValues" [] original.PossibleOperationStatusTypeValues
  PossibleRecognitionModelValues := recorded "PossibleRecognitionModelValues" [] original.PossibleRecognitionModelValues
  PossibleSnapshotApplyModeValues := recorded "PossibleSnapshotApplyModeValues" [] original.PossibleSnapshotApplyModeValues
  PossibleSnapshotObjectTypeValues := recorded "PossibleSnapshotObjectTypeValues" [] original.PossibleSnapshotObjectTypeValues
  PossibleTrainingStatusTypeValues := recorded "PossibleTrainingStatusTypeValues" [] original.PossibleTrainingStatusTypeValues
  UserAgent := recorded "UserAgent" [] original.UserAgent
  Version := recorded "Version" [] original.Version

/-- Panic value a finished call ended with, `none` when it returned normally. -/
def failure {ε α : Type} : Except ε α → Option ε
  | Except.ok _ => none
  | Except.error p => some p

/-- Call of the sample package: it counts itself in the state, returns `v` when
the package is healthy and panics otherwise. -/
def sampleCall {α : Type} (healthy : Bool) (v : α) : Call Nat String α := fun s =>
  (if healthy then Except.ok v else Except.error "wrapped package unavailable", s + 1)

/-- Concrete wrapped package for evaluating the layer: enumerated and client
types are strings, payload types are `Unit`, every constant is its own name, a
constructor returns its name followed by the endpoint, and the state counts the
calls made. -/
def sample (healthy : Bool) : Original Nat String where
  AccessoryType := String
  AttributeType := String
  BlurLevel := String
  ExposureLevel := String
  FindSimilarMatchMode := String
  Gender := String
  GlassesType := String
  HairColorType := String
  NoiseLevel := String
  OperationStatusType := String
  RecognitionModel := String
  SnapshotApplyMode := String
  SnapshotObjectType := String
  TrainingStatusType := String
  APIError := Unit
  Accessory := Unit
  ApplySnapshotRequest := Unit
  Attributes := Unit
  BaseClient := String
  Blur := Unit
  Client := String
  Coordinate := Unit
  DetectedFace := Unit
  Emotion := Unit
  Error := Unit
  Exposure := Unit
  FacialHair := Unit
  FindSimilarRequest := Unit
  GroupRequest := Unit
  GroupResult := Unit
  Hair := Unit
  HairColor := Unit
  HeadPose := Unit
  IdentifyCandidate := Unit
  IdentifyRequest := Unit
  IdentifyResult := Unit
  ImageURL := Unit
  Landmarks := Unit
  LargeFaceList := Unit
  LargeFaceListClient := String
  LargePersonGroup := Unit
  LargePersonGroupClient := String
  LargePersonGroupPersonClient := String
  List := Unit
  ListClient := String
  ListDetectedFace := Unit
  ListIdentifyResult := Unit
  ListLargeFaceList := Unit
  ListLargePersonGroup := Unit
  ListList := Unit
  ListPersistedFace := Unit
  ListPerson := Unit
  ListPersonGroup := Unit
  ListSimilarFace := Unit
  ListSnapshot := Unit
  Makeup := Unit
  MetaDataContract := Unit
  NameAndUserDataContract := Unit
  Noise := Unit
  Occlusion := Unit
  OperationStatus := Unit
  PersistedFace := Unit
  Person := Unit
  PersonGroup := Unit
  PersonGroupClient := String
  PersonGroupPersonClient := String
  Rectangle := Unit
  SimilarFace := Unit
  Snapshot := Unit
  SnapshotClient := String
  TakeSnapshotRequest := Unit
  TrainingStatus := Unit
  UpdateFaceRequest := Unit
  UpdateSnapshotRequest := Unit
  VerifyFaceToFaceRequest := Unit
  VerifyFaceToPersonRequest := Unit
  VerifyResult := Unit
  Glasses := "Glasses"
  HeadWear := "HeadWear"
  Mask := "Mask"
  AttributeTypeAccessories := "AttributeTypeAccessories"
  AttributeTypeAge := "AttributeTypeAge"
  AttributeTypeBlur := "AttributeTypeBlur"
  AttributeTypeEmotion := "AttributeTypeEmotion"
  AttributeTypeExposure := "AttributeTypeExposure"
  AttributeTypeFacialHair := "AttributeTypeFacialHair"
  AttributeTypeGender := "AttributeTypeGender"
  AttributeTypeGlasses := "AttributeTypeGlasses"
  AttributeTypeHair := "AttributeTypeHair"
  AttributeTypeHeadPose := "AttributeTypeHeadPose"
  AttributeTypeMakeup := "AttributeTypeMakeup"
  AttributeTypeNoise := "AttributeTypeNoise"
  AttributeTypeOcclusion := "AttributeTypeOcclusion"
  AttributeTypeSmile := "AttributeTypeSmile"
  High := "High"
  Low := "Low"
  Medium := "Medium"
  GoodExposure := "GoodExposure"
  OverExposure := "OverExposure"
  UnderExposure := "UnderExposure"
  MatchFace := "MatchFace"
  MatchPerson := "MatchPerson"
  Female := "Female"
  Male := "Male"
  NoGlasses := "NoGlasses"
  ReadingGlasses := "ReadingGlasses"
  Sunglasses := "Sunglasses"
  SwimmingGoggles := "SwimmingGoggles"
  Black := "Black"
  Blond := "Blond"
  Brown := "Brown"
  Gray := "Gray"
  Other := "Other"
  Red := "Red"
  Unknown := "Unknown"
  White := "White"
  NoiseLevelHigh := "NoiseLevelHigh"
  NoiseLevelLow := "NoiseLevelLow"
  NoiseLevelMedium := "NoiseLevelMedium"
  Failed := "Failed"
  Notstarted := "Notstarted"
  Running := "Running"
  Succeeded := "Succeeded"
  Recognition01 := "Recognition01"
  Recognition02 := "Recognition02"
  CreateNew := "CreateNew"
  SnapshotObjectTypeFaceList := "SnapshotObjectTypeFaceList"
  SnapshotObjectTypeLargeFaceList := "SnapshotObjectTypeLargeFaceList"
  SnapshotObjectTypeLargePersonGroup := "SnapshotObjectTypeLargePersonGroup"
  SnapshotObjectTypePersonGroup := "SnapshotObjectTypePersonGroup"
  TrainingStatusTypeFailed := "TrainingStatusTypeFailed"
  TrainingStatusTypeNonstarted := "TrainingStatusTypeNonstarted"
  TrainingStatusTypeRunning := "TrainingStatusTypeRunning"
  TrainingStatusTypeSucceeded := "TrainingStatusTypeSucceeded"
  New := fun endpoint => sampleCall healthy ("New " ++ endpoint)
  NewClient := fun endpoint => sampleCall healthy ("NewClient " ++ endpoint)
  NewLargeFaceListClient := fun endpoint => sampleCall healthy ("NewLargeFaceListClient " ++ endpoint)
  NewLargePersonGroupClient := fun endpoint => sampleCall healthy ("NewLargePersonGroupClient " ++ endpoint)
  NewLargePersonGroupPersonClient := fun endpoint => sampleCall healthy ("NewLargePersonGroupPersonClient " ++ endpoint)
  NewListClient := fun endpoint => sampleCall healthy ("NewListClient " ++ endpoint)
  NewPersonGroupClient := fun endpoint => sampleCall healthy ("NewPersonGroupClient " ++ endpoint)
  NewPersonGroupPersonClient := fun endpoint => sampleCall healthy ("NewPersonGroupPersonClient " ++ endpoint)
  NewSnapshotClient := fun endpoint => sampleCall healthy ("NewSnapshotClient " ++ endpoint)
  NewWithoutDefaults := fun endpoint => sampleCall healthy ("NewWithoutDefaults " ++ endpoint)
  PossibleAccessoryTypeValues := sampleCall healthy ["Glasses", "HeadWear", "Mask"]
  PossibleAttributeTypeValues := sampleCall healthy ["AttributeTypeAccessories", "AttributeTypeAge", "AttributeTypeBlur", "AttributeTypeEmotion", "AttributeTypeExposure", "AttributeTypeFacialHair", "AttributeTypeGender", "AttributeTypeGlasses", "AttributeTypeHair", "AttributeTypeHeadPose", "AttributeTypeMakeup", "AttributeTypeNoise", "AttributeTypeOcclusion", "AttributeTypeSmile"]
  PossibleBlurLevelValues := sampleCall healthy ["High", "Low", "Medium"]
  PossibleExposureLevelValues := sampleCall healthy ["GoodExposure", "OverExposure", "UnderExposure"]
  PossibleFindSimilarMatchModeValues := sampleCall healthy ["MatchFace", "MatchPerson"]
  PossibleGenderValues := sampleCall healthy ["Female", "Male"]
  PossibleGlassesTypeValues := sampleCall healthy ["NoGlasses", "ReadingGlasses", "Sunglasses", "SwimmingGoggles"]
  PossibleHairColorTypeValues := sampleCall healthy ["Black", "Blond", "Brown", "Gray", "Other", "Red", "Unknown", "White"]
  PossibleNoiseLevelValues := sampleCall healthy ["NoiseLevelHigh", "NoiseLevelLow", "NoiseLevelMedium"]
  PossibleOperationStatusTypeValues := sampleCall healthy ["Failed", "Notstarted", "Running", "Succeeded"]
  PossibleRecognitionModelValues := sampleCall healthy ["Recognition01", "Recognition02"]
  PossibleSnapshotApplyModeValues := sampleCall healthy ["CreateNew"]
  PossibleSnapshotObjectTypeValues := sampleCall healthy ["SnapshotObjectTypeFaceList", "SnapshotObjectTypeLargeFaceList", "SnapshotObjectTypeLargePersonGroup", "SnapshotObjectTypePersonGroup"]
  PossibleTrainingStatusTypeValues := sampleCall healthy ["TrainingStatusTypeFailed", "TrainingStatusTypeNonstarted", "TrainingStatusTypeRunning", "TrainingStatusTypeSucceeded"]
  UserAgent := sampleCall healthy "Azure-SDK-For-Go face/1.0"
  Version := sampleCall healthy "1.0"
/-! ## Facts about `UserAgent` used by several results -/

theorem UserAgent_of_returns {σ ε : Type} (original : Original σ ε) (s s1 : σ) (u : String)
    (h : original.UserAgent s = (Except.ok u, s1)) :
    UserAgent original s = (Except.ok (u ++ " profiles/latest"), s1) := by
  simp only [UserAgent, h]

theorem UserAgent_of_panics {σ ε : Type} (original : Original σ ε) (s s1 : σ) (p : ε)
    (h : original.UserAgent s = (Except.error p, s1)) :
    UserAgent original s = (Except.error p, s1) := by
  simp only [UserAgent, h]

theorem UserAgent_failure {σ ε : Type} (original : Original σ ε) (s : σ) :
    failure (UserAgent original s).1 = failure (original.UserAgent s).1 := by
  rcases h : original.UserAgent s with ⟨r, s1⟩
  cases r with
  | ok u => rw [UserAgent_of_returns original s s1 u h]; rfl
  | error p => rw [UserAgent_of_panics original s s1 p h]

theorem UserAgent_state {σ ε : Type} (original : Original σ ε) (s : σ) :
    (UserAgent original s).2 = (original.UserAgent s).2 := by
  rcases h : original.UserAgent s with ⟨r, s1⟩
  cases r with
  | ok u => rw [UserAgent_of_returns original s s1 u h]
  | error p => rw [UserAgent_of_panics original s s1 p h]

theorem UserAgent_traced_state {σ ε : Type} (original : Original σ ε) (s : σ)
    (log : Slice CallRecord) :
    (UserAgent original.traced (s, log)).2 =
      ((original.UserAgent s).2, log ++ [CallRecord.mk "UserAgent" []]) := by
  rw [UserAgent_state]
  rfl

theorem UserAgent_congr {σ ε : Type} (original : Original σ ε) (s t : σ)
    (h : original.UserAgent s = original.UserAgent t) :
    UserAgent original s = UserAgent original t := by
  simp only [UserAgent, h]

theorem profile_suffix_data (u : String) :
    (u ++ " profiles/latest").data = u.data ++ " profiles/latest".data := rfl


/-! ## C1: `UserAgent` appends the profile tag -/

/-- C1: whenever the wrapped `UserAgent()` returns `u`, the re-exported
`UserAgent()` returns `u` followed by the literal `" profiles/latest"` (a space,
then `profiles/latest`, 16 characters), in the state the wrapped call left. The
first `u.length` characters of the result are `u` itself and what follows them
is exactly the literal. -/
theorem UserAgent_appends_profile_suffix {σ ε : Type} (original : Original σ ε)
    (s s1 : σ) (u : String) (h : original.UserAgent s = (Except.ok u, s1)) :
    UserAgent original s = (Except.ok (u ++ " profiles/latest"), s1) ∧
    (u ++ " profiles/latest").data = u.data ++ " profiles/latest".data ∧
    (u ++ " profiles/latest").take u.length = u ∧
    (u ++ " profiles/latest").drop u.length = " profiles/latest" ∧
    " profiles/latest" = " " ++ "profiles/latest" ∧
    " profiles/latest".length = 16 := by
  refine ⟨UserAgent_of_returns original s s1 u h, rfl, ?_, ?_, rfl, rfl⟩
  · rw [String.take_eq, profile_suffix_data]
    show String.mk (List.take u.data.length _) = u
    rw [List.take_left]
  · rw [String.drop_eq, profile_suffix_data]
    show String.mk (List.drop u.data.length _) = _
    rw [List.drop_left]

/-- C1 at the sample package: the wrapped value `"Azure-SDK-For-Go face/1.0"`
comes back with the tag appended. -/
theorem UserAgent_appends_profile_suffix_witness :
    (sample true).UserAgent 0 = (Except.ok "Azure-SDK-For-Go face/1.0", 1) ∧
    UserAgent (sample true) 0 =
      (Except.ok "Azure-SDK-For-Go face/1.0 profiles/latest", 1) :=
  ⟨rfl, (UserAgent_appends_profile_suffix (sample true) 0 1 "Azure-SDK-For-Go face/1.0" rfl).1⟩

/-! ## C2: constructors forward -/

/-- C2: each of the ten re-exported constructors, applied to an endpoint, is the
wrapped constructor of the same name applied to that endpoint: same outcome and
same final state from every state. Run against the recording package, each one
logs exactly one call, to the wrapped constructor of its own name, with the
endpoint it was given as the argument. -/
theorem constructors_forward {σ ε : Type} (original : Original σ ε) (endpoint : String)
    (s : σ) (log : Slice CallRecord) :
    New original endpoint = original.New endpoint ∧
    NewClient original endpoint = original.NewClient endpoint ∧
    NewLargeFaceListClient original endpoint = original.NewLargeFaceListClient endpoint ∧
    NewLargePersonGroupClient original endpoint = original.NewLargePersonGroupClient endpoint ∧
    NewLargePersonGroupPersonClient original endpoint = original.NewLargePersonGroupPersonClient endpoint ∧
    NewListClient original endpoint = original.NewListClient endpoint ∧
    NewPersonGroupClient original endpoint = original.NewPersonGroupClient endpoint ∧
    NewPersonGroupPersonClient original endpoint = original.NewPersonGroupPersonClient endpoint ∧
    NewSnapshotClient original endpoint = original.NewSnapshotClient endpoint ∧
    NewWithoutDefaults original endpoint = original.NewWithoutDefaults endpoint ∧
    (New original.traced endpoint (s, log)).2 =
      ((original.New endpoint s).2, log ++ [CallRecord.mk "New" [endpoint]]) ∧
    (NewClient original.traced endpoint (s, log)).2 =
      ((original.NewClient endpoint s).2, log ++ [CallRecord.mk "NewClient" [endpoint]]) ∧
    (NewLargeFaceListClient original.traced endpoint (s, log)).2 =
      ((original.NewLargeFaceListClient endpoint s).2, log ++ [CallRecord.mk "NewLargeFaceListClient" [endpoint]]) ∧
    (NewLargePersonGroupClient original.traced endpoint (s, log)).2 =
      ((original.NewLargePersonGroupClient endpoint s).2, log ++ [CallRecord.mk "NewLargePersonGroupClient" [endpoint]]) ∧
    (NewLargePersonGroupPersonClient original.traced endpoint (s, log)).2 =
      ((original.NewLargePersonGroupPersonClient endpoint s).2, log ++ [CallRecord.mk "NewLargePersonGroupPersonClient" [endpoint]]) ∧
    (NewListClient original.traced endpoint (s, log)).2 =
      ((original.NewListClient endpoint s).2, log ++ [CallRecord.mk "NewListClient" [endpoint]]) ∧
    (NewPersonGroupClient original.traced endpoint (s, log)).2 =
      ((original.NewPersonGroupClient endpoint s).2, log ++ [CallRecord.mk "NewPersonGroupClient" [endpoint]]) ∧
    (NewPersonGroupPersonClient original.traced endpoint (s, log)).2 =
      ((original.NewPersonGroupPersonClient endpoint s).2, log ++ [CallRecord.mk "NewPersonGroupPersonClient" [endpoint]]) ∧
    (NewSnapshotClient original.traced endpoint (s, log)).2 =
      ((original.NewSnapshotClient endpoint s).2, log ++ [CallRecord.mk "NewSnapshotClient" [endpoint]]) ∧
    (NewWithoutDefaults original.traced endpoint (s, log)).2 =
      ((original.NewWithoutDefaults endpoint s).2, log ++ [CallRecord.mk "NewWithoutDefaults" [endpoint]]) :=
  ⟨rfl, rfl, rfl, rfl, rfl, rfl, rfl, rfl, rfl, rfl,
    rfl, rfl, rfl, rfl, rfl, rfl, rfl, rfl, rfl, rfl⟩

/-- C2 at the sample package and the endpoint of the scenario: `New` and
`NewWithoutDefaults` reach different wrapped constructors. -/
theorem constructors_forward_witness :
    NewClient (sample true) "https://example.cognitiveservices.azure.com" 0 =
      (sample true).NewClient "https://example.cognitiveservices.azure.com" 0 ∧
    NewClient (sample true) "https://example.cognitiveservices.azure.com" 0 =
      (Except.ok "NewClient https://example.cognitiveservices.azure.com", 1) ∧
    New (sample true) "https://example.cognitiveservices.azure.com" 0 ≠
      NewWithoutDefaults (sample true) "https://example.cognitiveservices.azure.com" 0 :=
  ⟨congrFun (constructors_forward (sample true) "https://example.cognitiveservices.azure.com" 0 []).2.1 0,
    rfl,
    fun h =>
      have h2 : (some "New https://example.cognitiveservices.azure.com" : Option String) =
          some "NewWithoutDefaults https://example.cognitiveservices.azure.com" :=
        congrArg (fun r : Except String String × Nat => Except.toOption r.1) h
      absurd h2 (by decide)⟩

/-! ## C3: enumeration-listing helpers forward -/

/-- C3: each of the fourteen `Possible...Values` helpers is the wrapped helper of
the same name: from every state it returns the same sequence (same length, same
elements, same order) and leaves the same state. -/
theorem possible_values_forward {σ ε : Type} (original : Original σ ε) :
    PossibleAccessoryTypeValues original = original.PossibleAccessoryTypeValues ∧
    PossibleAttributeTypeValues original = original.PossibleAttributeTypeValues ∧
    PossibleBlurLevelValues original = original.PossibleBlurLevelValues ∧
    PossibleExposureLevelValues original = original.PossibleExposureLevelValues ∧
    PossibleFindSimilarMatchModeValues original = original.PossibleFindSimilarMatchModeValues ∧
    PossibleGenderValues original = original.PossibleGenderValues ∧
    PossibleGlassesTypeValues original = original.PossibleGlassesTypeValues ∧
    PossibleHairColorTypeValues original = original.PossibleHairColorTypeValues ∧
    PossibleNoiseLevelValues original = original.PossibleNoiseLevelValues ∧
    PossibleOperationStatusTypeValues original = original.PossibleOperationStatusTypeValues ∧
    PossibleRecognitionModelValues original = original.PossibleRecognitionModelValues ∧
    PossibleSnapshotApplyModeValues original = original.PossibleSnapshotApplyModeValues ∧
    PossibleSnapshotObjectTypeValues original = original.PossibleSnapshotObjectTypeValues ∧
    PossibleTrainingStatusTypeValues original = original.PossibleTrainingStatusTypeValues :=
  ⟨rfl, rfl, rfl, rfl, rfl, rfl, rfl, rfl, rfl, rfl,
    rfl, rfl, rfl, rfl⟩

/-- C3 at the sample package: the three accessory values come back in the
order the wrapped helper lists them. -/
theorem possible_values_forward_witness :
    PossibleAccessoryTypeValues (sample true) 0 =
      (Except.ok ["Glasses", "HeadWear", "Mask"], 1) :=
  congrFun (possible_values_forward (sample true)).1 0

/-! ## C4: constants -/

/-- C4: each of the 57 re-exported constants has the wrapped enumerated type of
its block and equals the wrapped constant of the same name. Whenever the wrapped
`High` and `NoiseLevelHigh` (or `Failed` and `TrainingStatusTypeFailed`) are
different values, the re-exported `High` (or `Failed`) is not the other one. -/
theorem constants_equal_wrapped {σ ε : Type} (original : Original σ ε) :
    (Glasses original : original.AccessoryType) = original.Glasses ∧
    (HeadWear original : original.AccessoryType) = original.HeadWear ∧
    (Mask original : original.AccessoryType) = original.Mask ∧
    (AttributeTypeAccessories original : original.AttributeType) = original.AttributeTypeAccessories ∧
    (AttributeTypeAge original : original.AttributeType) = original.AttributeTypeAge ∧
    (AttributeTypeBlur original : original.AttributeType) = original.AttributeTypeBlur ∧
    (AttributeTypeEmotion original : original.AttributeType) = original.AttributeTypeEmotion ∧
    (AttributeTypeExposure original : original.AttributeType) = original.AttributeTypeExposure ∧
    (AttributeTypeFacialHair original : original.AttributeType) = original.AttributeTypeFacialHair ∧
    (AttributeTypeGender original : original.AttributeType) = original.AttributeTypeGender ∧
    (AttributeTypeGlasses original : original.AttributeType) = original.AttributeTypeGlasses ∧
    (AttributeTypeHair original : original.AttributeType) = original.AttributeTypeHair ∧
    (AttributeTypeHeadPose original : original.AttributeType) = original.AttributeTypeHeadPose ∧
    (AttributeTypeMakeup original : original.AttributeType) = original.AttributeTypeMakeup ∧
    (AttributeTypeNoise original : original.AttributeType) = original.AttributeTypeNoise ∧
    (AttributeTypeOcclusion original : original.AttributeType) = original.AttributeTypeOcclusion ∧
    (AttributeTypeSmile original : original.AttributeType) = original.AttributeTypeSmile ∧
    (High original : original.BlurLevel) = original.High ∧
    (Low original : original.BlurLevel) = original.Low ∧
    (Medium original : original.BlurLevel) = original.Medium ∧
    (GoodExposure original : original.ExposureLevel) = original.GoodExposure ∧
    (OverExposure original : original.ExposureLevel) = original.OverExposure ∧
    (UnderExposure original : original.ExposureLevel) = original.UnderExposure ∧
    (MatchFace original : original.FindSimilarMatchMode) = original.MatchFace ∧
    (MatchPerson original : original.FindSimilarMatchMode) = original.MatchPerson ∧
    (Female original : original.Gender) = original.Female ∧
    (Male original : original.Gender) = original.Male ∧
    (NoGlasses original : original.GlassesType) = original.NoGlasses ∧
    (ReadingGlasses original : original.GlassesType) = original.ReadingGlasses ∧
    (Sunglasses original : original.GlassesType) = original.Sunglasses ∧
    (SwimmingGoggles original : original.GlassesType) = original.SwimmingGoggles ∧
    (Black original : original.HairColorType) = original.Black ∧
    (Blond original : original.HairColorType) = original.Blond ∧
    (Brown original : original.HairColorType) = original.Brown ∧
    (Gray original : original.HairColorType) = original.Gray ∧
    (Other original : original.HairColorType) = original.Other ∧
    (Red original : original.HairColorType) = original.Red ∧
    (Unknown original : original.HairColorType) = original.Unknown ∧
    (White original : original.HairColorType) = original.White ∧
    (NoiseLevelHigh original : original.NoiseLevel) = original.NoiseLevelHigh ∧
    (NoiseLevelLow original : original.NoiseLevel) = original.NoiseLevelLow ∧
    (NoiseLevelMedium original : original.NoiseLevel) = original.NoiseLevelMedium ∧
    (Failed original : original.OperationStatusType) = original.Failed ∧
    (Notstarted original : original.OperationStatusType) = original.Notstarted ∧
    (Running original : original.OperationStatusType) = original.Running ∧
    (Succeeded original : original.OperationStatusType) = original.Succeeded ∧
    (Recognition01 original : original.RecognitionModel) = original.Recognition01 ∧
    (Recognition02 original : original.RecognitionModel) = original.Recognition02 ∧
    (CreateNew original : original.SnapshotApplyMode) = original.CreateNew ∧
    (SnapshotObjectTypeFaceList original : original.SnapshotObjectType) = original.SnapshotObjectTypeFaceList ∧
    (SnapshotObjectTypeLargeFaceList original : original.SnapshotObjectType) = original.SnapshotObjectTypeLargeFaceList ∧
    (SnapshotObjectTypeLargePersonGroup original : original.SnapshotObjectType) = original.SnapshotObjectTypeLargePersonGroup ∧
    (SnapshotObjectTypePersonGroup original : original.SnapshotObjectType) = original.SnapshotObjectTypePersonGroup ∧
    (TrainingStatusTypeFailed original : original.TrainingStatusType) = original.TrainingStatusTypeFailed ∧
    (TrainingStatusTypeNonstarted original : original.TrainingStatusType) = original.TrainingStatusTypeNonstarted ∧
    (TrainingStatusTypeRunning original : original.TrainingStatusType) = original.TrainingStatusTypeRunning ∧
    (TrainingStatusTypeSucceeded original : original.TrainingStatusType) = original.TrainingStatusTypeSucceeded ∧
    (¬ HEq original.High original.NoiseLevelHigh →
      ¬ HEq (High original) original.NoiseLevelHigh) ∧
    (¬ HEq original.Failed original.TrainingStatusTypeFailed →
      ¬ HEq (Failed original) original.TrainingStatusTypeFailed) :=
  ⟨rfl, rfl, rfl, rfl, rfl, rfl, rfl, rfl, rfl, rfl,
    rfl, rfl, rfl, rfl, rfl, rfl, rfl, rfl, rfl, rfl,
    rfl, rfl, rfl, rfl, rfl, rfl, rfl, rfl, rfl, rfl,
    rfl, rfl, rfl, rfl, rfl, rfl, rfl, rfl, rfl, rfl,
    rfl, rfl, rfl, rfl, rfl, rfl, rfl, rfl, rfl, rfl,
    rfl, rfl, rfl, rfl, rfl, rfl, rfl, id, id⟩

/-- C4 at the sample package, where every constant is its own name: `High` is
the wrapped `High` and differs from the wrapped `NoiseLevelHigh`. -/
theorem constants_equal_wrapped_witness :
    Glasses (sample true) = "Glasses" ∧
    ¬ HEq (High (sample true)) (sample true).NoiseLevelHigh :=
  ⟨(constants_equal_wrapped (sample true)).1,
    (constants_equal_wrapped (sample true)).2.2.2.2.2.2.2.2.2.2.2.2.2.2.2.2.2.2.2.2.2.2.2.2.2.2.2.2.2.2.2.2.2.2.2.2.2.2.2.2.2.2.2.2.2.2.2.2.2.2.2.2.2.2.2.2.2.1
      (fun h => absurd (eq_of_heq h) (by decide : ("High" : String) ≠ "NoiseLevelHigh"))⟩
/-! ## C5: `Version` forwards unchanged -/

/-- C5: the re-exported `Version()` is the wrapped `Version()`: whatever value
the wrapped call returns is returned as is, a panic is passed on as is, and the
state is the one the wrapped call left. In particular the result is never the
wrapped value with `" profiles/latest"` appended, and the recording package logs
one call, to `Version`. -/
theorem Version_forwards_unchanged {σ ε : Type} (original : Original σ ε) (s : σ)
    (log : Slice CallRecord) :
    Version original = original.Version ∧
    (∀ (v : String) (s1 : σ), original.Version s = (Except.ok v, s1) →
      Version original s = (Except.ok v, s1) ∧
      Version original s ≠ (Except.ok (v ++ " profiles/latest"), s1)) ∧
    (Version original.traced (s, log)).2 =
      ((original.Version s).2, log ++ [CallRecord.mk "Version" []]) := by
  refine ⟨rfl, ?_, rfl⟩
  intro v s1 h
  refine ⟨h, ?_⟩
  intro h2
  have h3 : Version original s = original.Version s := rfl
  rw [h3, h] at h2
  have h4 : v = v ++ " profiles/latest" := by
    injection h2 with h5 _
    injection h5
  have h5 := congrArg String.length h4
  rw [String.length_append] at h5
  have h6 : " profiles/latest".length = 16 := rfl
  omega

/-- C5 at the sample package: version `"1.0"` comes back as `"1.0"`. -/
theorem Version_forwards_unchanged_witness :
    Version (sample true) 0 = (Except.ok "1.0", 1) ∧
    Version (sample true) 0 ≠ (Except.ok "1.0 profiles/latest", 1) :=
  (Version_forwards_unchanged (sample true) 0 []).2.1 "1.0" 1 rfl

/-! ## C6: type aliases -/

/-- C6: each of the 77 type names of the file (the fourteen enumerated types and
`APIError` through `VerifyResult`) is the wrapped type of the same name. A value
of the wrapped `Client` is a value of the re-exported `Client` and conversely,
the passage being the identity, and the wrapped `NewClient` call is the
re-exported one at the re-exported result type. -/
theorem type_aliases_identical {σ ε : Type} (original : Original σ ε) (endpoint : String) :
    AccessoryType original = original.AccessoryType ∧
    AttributeType original = original.AttributeType ∧
    BlurLevel original = original.BlurLevel ∧
    ExposureLevel original = original.ExposureLevel ∧
    FindSimilarMatchMode original = original.FindSimilarMatchMode ∧
    Gender original = original.Gender ∧
    GlassesType original = original.GlassesType ∧
    HairColorType original = original.HairColorType ∧
    NoiseLevel original = original.NoiseLevel ∧
    OperationStatusType original = original.OperationStatusType ∧
    RecognitionModel original = original.RecognitionModel ∧
    SnapshotApplyMode original = original.SnapshotApplyMode ∧
    SnapshotObjectType original = original.SnapshotObjectType ∧
    TrainingStatusType original = original.TrainingStatusType ∧
    APIError original = original.APIError ∧
    Accessory original = original.Accessory ∧
    ApplySnapshotRequest original = original.ApplySnapshotRequest ∧
    Attributes original = original.Attributes ∧
    BaseClient original = original.BaseClient ∧
    Blur original = original.Blur ∧
    Client original = original.Client ∧
    Coordinate original = original.Coordinate ∧
    DetectedFace original = original.DetectedFace ∧
    Emotion original = original.Emotion ∧
    Error original = original.Error ∧
    Exposure original = original.Exposure ∧
    FacialHair original = original.FacialHair ∧
    FindSimilarRequest original = original.FindSimilarRequest ∧
    GroupRequest original = original.GroupRequest ∧
    GroupResult original = original.GroupResult ∧
    Hair original = original.Hair ∧
    HairColor original = original.HairColor ∧
    HeadPose original = original.HeadPose ∧
    IdentifyCandidate original = original.IdentifyCandidate ∧
    IdentifyRequest original = original.IdentifyRequest ∧
    IdentifyResult original = original.IdentifyResult ∧
    ImageURL original = original.ImageURL ∧
    Landmarks original = original.Landmarks ∧
    LargeFaceList original = original.LargeFaceList ∧
    LargeFaceListClient original = original.LargeFaceListClient ∧
    LargePersonGroup original = original.LargePersonGroup ∧
    LargePersonGroupClient original = original.LargePersonGroupClient ∧
    LargePersonGroupPersonClient original = original.LargePersonGroupPersonClient ∧
    List original = original.List ∧
    ListClient original = original.ListClient ∧
    ListDetectedFace original = original.ListDetectedFace ∧
    ListIdentifyResult original = original.ListIdentifyResult ∧
    ListLargeFaceList original = original.ListLargeFaceList ∧
    ListLargePersonGroup original = original.ListLargePersonGroup ∧
    ListList original = original.ListList ∧
    ListPersistedFace original = original.ListPersistedFace ∧
    ListPerson original = original.ListPerson ∧
    ListPersonGroup original = original.ListPersonGroup ∧
    ListSimilarFace original = original.ListSimilarFace ∧
    ListSnapshot original = original.ListSnapshot ∧
    Makeup original = original.Makeup ∧
    MetaDataContract original = original.MetaDataContract ∧
    NameAndUserDataContract original = original.NameAndUserDataContract ∧
    Noise original = original.Noise ∧
    Occlusion original = original.Occlusion ∧
    OperationStatus original = original.OperationStatus ∧
    PersistedFace original = original.PersistedFace ∧
    Person original = original.Person ∧
    PersonGroup original = original.PersonGroup ∧
    PersonGroupClient original = original.PersonGroupClient ∧
    PersonGroupPersonClient original = original.PersonGroupPersonClient ∧
    Rectangle original = original.Rectangle ∧
    SimilarFace original = original.SimilarFace ∧
    Snapshot original = original.Snapshot ∧
    SnapshotClient original = original.SnapshotClient ∧
    TakeSnapshotRequest original = original.TakeSnapshotRequest ∧
    TrainingStatus original = original.TrainingStatus ∧
    UpdateFaceRequest original = original.UpdateFaceRequest ∧
    UpdateSnapshotRequest original = original.UpdateSnapshotRequest ∧
    VerifyFaceToFaceRequest original = original.VerifyFaceToFaceRequest ∧
    VerifyFaceToPersonRequest original = original.VerifyFaceToPersonRequest ∧
    VerifyResult original = original.VerifyResult ∧
    (fun x : original.Client => (x : Client original)) = id ∧
    (fun x : Client original => (x : original.Client)) = id ∧
    (original.NewClient endpoint : Call σ ε (Client original)) = NewClient original endpoint :=
  ⟨rfl, rfl, rfl, rfl, rfl, rfl, rfl, rfl, rfl, rfl,
    rfl, rfl, rfl, rfl, rfl, rfl, rfl, rfl, rfl, rfl,
    rfl, rfl, rfl, rfl, rfl, rfl, rfl, rfl, rfl, rfl,
    rfl, rfl, rfl, rfl, rfl, rfl, rfl, rfl, rfl, rfl,
    rfl, rfl, rfl, rfl, rfl, rfl, rfl, rfl, rfl, rfl,
    rfl, rfl, rfl, rfl, rfl, rfl, rfl, rfl, rfl, rfl,
    rfl, rfl, rfl, rfl, rfl, rfl, rfl, rfl, rfl, rfl,
    rfl, rfl, rfl, rfl, rfl, rfl, rfl, rfl, rfl, rfl⟩

/-- C6 at the sample package, whose client types are strings: the re-exported
`Client` is `String`. -/
theorem type_aliases_identical_witness :
    AccessoryType (sample true) = String ∧ Client (sample true) = String :=
  ⟨(type_aliases_identical (sample true) "https://example.cognitiveservices.azure.com").1,
    (type_aliases_identical (sample true) "https://example.cognitiveservices.azure.com").2.2.2.2.2.2.2.2.2.2.2.2.2.2.2.2.2.2.2.2.1⟩

/-! ## C7: no failure of the layer's own -/

/-- C7: for each of the 26 functions of the file, every argument and every
state, the function panics exactly when its wrapped call panics, and then with
the same panic value; it returns normally exactly when the wrapped call does.
`failure` is `none` for a normal return and `some p` for a panic with `p`. -/
theorem no_failure_of_its_own {σ ε : Type} (original : Original σ ε) (endpoint : String)
    (s : σ) :
    failure (UserAgent original s).1 = failure (original.UserAgent s).1 ∧
    failure (Version original s).1 = failure (original.Version s).1 ∧
    failure (New original endpoint s).1 = failure (original.New endpoint s).1 ∧
    failure (NewClient original endpoint s).1 = failure (original.NewClient endpoint s).1 ∧
    failure (NewLargeFaceListClient original endpoint s).1 = failure (original.NewLargeFaceListClient endpoint s).1 ∧
    failure (NewLargePersonGroupClient original endpoint s).1 = failure (original.NewLargePersonGroupClient endpoint s).1 ∧
    failure (NewLargePersonGroupPersonClient original endpoint s).1 = failure (original.NewLargePersonGroupPersonClient endpoint s).1 ∧
    failure (NewListClient original endpoint s).1 = failure (original.NewListClient endpoint s).1 ∧
    failure (NewPersonGroupClient original endpoint s).1 = failure (original.NewPersonGroupClient endpoint s).1 ∧
    failure (NewPersonGroupPersonClient original endpoint s).1 = failure (original.NewPersonGroupPersonClient endpoint s).1 ∧
    failure (NewSnapshotClient original endpoint s).1 = failure (original.NewSnapshotClient endpoint s).1 ∧
    failure (NewWithoutDefaults original endpoint s).1 = failure (original.NewWithoutDefaults endpoint s).1 ∧
    failure (PossibleAccessoryTypeValues original s).1 = failure (original.PossibleAccessoryTypeValues s).1 ∧
    failure (PossibleAttributeTypeValues original s).1 = failure (original.PossibleAttributeTypeValues s).1 ∧
    failure (PossibleBlurLevelValues original s).1 = failure (original.PossibleBlurLevelValues s).1 ∧
    failure (PossibleExposureLevelValues original s).1 = failure (original.PossibleExposureLevelValues s).1 ∧
    failure (PossibleFindSimilarMatchModeValues original s).1 = failure (original.PossibleFindSimilarMatchModeValues s).1 ∧
    failure (PossibleGenderValues original s).1 = failure (original.PossibleGenderValues s).1 ∧
    failure (PossibleGlassesTypeValues original s).1 = failure (original.PossibleGlassesTypeValues s).1 ∧
    failure (PossibleHairColorTypeValues original s).1 = failure (original.PossibleHairColorTypeValues s).1 ∧
    failure (PossibleNoiseLevelValues original s).1 = failure (original.PossibleNoiseLevelValues s).1 ∧
    failure (PossibleOperationStatusTypeValues original s).1 = failure (original.PossibleOperationStatusTypeValues s).1 ∧
    failure (PossibleRecognitionModelValues original s).1 = failure (original.PossibleRecognitionModelValues s).1 ∧
    failure (PossibleSnapshotApplyModeValues original s).1 = failure (original.PossibleSnapshotApplyModeValues s).1 ∧
    failure (PossibleSnapshotObjectTypeValues original s).1 = failure (original.PossibleSnapshotObjectTypeValues s).1 ∧
    failure (PossibleTrainingStatusTypeValues original s).1 = failure (original.PossibleTrainingStatusTypeValues s).1 :=
  ⟨UserAgent_failure original s, rfl, rfl, rfl, rfl, rfl, rfl, rfl, rfl, rfl,
    rfl, rfl, rfl, rfl, rfl, rfl, rfl, rfl, rfl, rfl,
    rfl, rfl, rfl, rfl, rfl, rfl⟩

/-- C7 at the sample package: when the wrapped package is unavailable,
`UserAgent` panics with the wrapped panic value and nothing is appended to it;
when it is healthy, `UserAgent` returns. -/
theorem no_failure_of_its_own_witness :
    failure (UserAgent (sample false) 0).1 = some "wrapped package unavailable" ∧
    failure (UserAgent (sample true) 0).1 = none :=
  ⟨(no_failure_of_its_own (sample false) "https://example.cognitiveservices.azure.com" 0).1,
    (no_failure_of_its_own (sample true) "https://example.cognitiveservices.azure.com" 0).1⟩

/-! ## C9: no state and no side effect of the layer's own -/

/-- C9: for each of the 26 functions of the file: (1) the state it ends in is the
state its wrapped call ends in; (2) run against the recording package it logs
exactly one call, to the wrapped function of its own name with its own
arguments; (3) whenever two wrapped calls (from states `s` and `t`, with
endpoints `endpoint` and `endpoint2`) give equal results and equal final states,
so do the two re-exported calls. -/
theorem no_state_no_side_effect {σ ε : Type} (original : Original σ ε)
    (endpoint endpoint2 : String) (s t : σ) (log : Slice CallRecord) :
    ((UserAgent original s).2 = (original.UserAgent s).2 ∧
      (UserAgent original.traced (s, log)).2 =
        ((original.UserAgent s).2, log ++ [CallRecord.mk "UserAgent" []]) ∧
      (original.UserAgent s = original.UserAgent t →
        UserAgent original s = UserAgent original t)) ∧
    ((Version original s).2 = (original.Version s).2 ∧
      (Version original.traced (s, log)).2 =
        ((original.Version s).2, log ++ [CallRecord.mk "Version" []]) ∧
      (original.Version s = original.Version t →
        Version original s = Version original t)) ∧
    ((New original endpoint s).2 = (original.New endpoint s).2 ∧
      (New original.traced endpoint (s, log)).2 =
        ((original.New endpoint s).2, log ++ [CallRecord.mk "New" [endpoint]]) ∧
      (original.New endpoint s = original.New endpoint2 t →
        New original endpoint s = New original endpoint2 t)) ∧
    ((NewClient original endpoint s).2 = (original.NewClient endpoint s).2 ∧
      (NewClient original.traced endpoint (s, log)).2 =
        ((original.NewClient endpoint s).2, log ++ [CallRecord.mk "NewClient" [endpoint]]) ∧
      (original.NewClient endpoint s = original.NewClient endpoint2 t →
        NewClient original endpoint s = NewClient original endpoint2 t)) ∧
    ((NewLargeFaceListClient original endpoint s).2 = (original.NewLargeFaceListClient endpoint s).2 ∧
      (NewLargeFaceListClient original.traced endpoint (s, log)).2 =
        ((original.NewLargeFaceListClient endpoint s).2, log ++ [CallRecord.mk "NewLargeFaceListClient" [endpoint]]) ∧
      (original.NewLargeFaceListClient endpoint s = original.NewLargeFaceListClient endpoint2 t →
        NewLargeFaceListClient original endpoint s = NewLargeFaceListClient original endpoint2 t)) ∧
    ((NewLargePersonGroupClient original endpoint s).2 = (original.NewLargePersonGroupClient endpoint s).2 ∧
      (NewLargePersonGroupClient original.traced endpoint (s, log)).2 =
        ((original.NewLargePersonGroupClient endpoint s).2, log ++ [CallRecord.mk "NewLargePersonGroupClient" [endpoint]]) ∧
      (original.NewLargePersonGroupClient endpoint s = original.NewLargePersonGroupClient endpoint2 t →
        NewLargePersonGroupClient original endpoint s = NewLargePersonGroupClient original endpoint2 t)) ∧
    ((NewLargePersonGroupPersonClient original endpoint s).2 = (original.NewLargePersonGroupPersonClient endpoint s).2 ∧
      (NewLargePersonGroupPersonClient original.traced endpoint (s, log)).2 =
        ((original.NewLargePersonGroupPersonClient endpoint s).2, log ++ [CallRecord.mk "NewLargePersonGroupPersonClient" [endpoint]]) ∧
      (original.NewLargePersonGroupPersonClient endpoint s = original.NewLargePersonGroupPersonClient endpoint2 t →
        NewLargePersonGroupPersonClient original endpoint s = NewLargePersonGroupPersonClient original endpoint2 t)) ∧
    ((NewListClient original endpoint s).2 = (original.NewListClient endpoint s).2 ∧
      (NewListClient original.traced endpoint (s, log)).2 =
        ((original.NewListClient endpoint s).2, log ++ [CallRecord.mk "NewListClient" [endpoint]]) ∧
      (original.NewListClient endpoint s = original.NewListClient endpoint2 t →
        NewListClient original endpoint s = NewListClient original endpoint2 t)) ∧
    ((NewPersonGroupClient original endpoint s).2 = (original.NewPersonGroupClient endpoint s).2 ∧
      (NewPersonGroupClient original.traced endpoint (s, log)).2 =
        ((original.NewPersonGroupClient endpoint s).2, log ++ [CallRecord.mk "NewPersonGroupClient" [endpoint]]) ∧
      (original.NewPersonGroupClient endpoint s = original.NewPersonGroupClient endpoint2 t →
        NewPersonGroupClient original endpoint s = NewPersonGroupClient original endpoint2 t)) ∧
    ((NewPersonGroupPersonClient original endpoint s).2 = (original.NewPersonGroupPersonClient endpoint s).2 ∧
      (NewPersonGroupPersonClient original.traced endpoint (s, log)).2 =
        ((original.NewPersonGroupPersonClient endpoint s).2, log ++ [CallRecord.mk "NewPersonGroupPersonClient" [endpoint]]) ∧
      (original.NewPersonGroupPersonClient endpoint s = original.NewPersonGroupPersonClient endpoint2 t →
        NewPersonGroupPersonClient original endpoint s = NewPersonGroupPersonClient original endpoint2 t)) ∧
    ((NewSnapshotClient original endpoint s).2 = (original.NewSnapshotClient endpoint s).2 ∧
      (NewSnapshotClient original.traced endpoint (s, log)).2 =
        ((original.NewSnapshotClient endpoint s).2, log ++ [CallRecord.mk "NewSnapshotClient" [endpoint]]) ∧
      (original.NewSnapshotClient endpoint s = original.NewSnapshotClient endpoint2 t →
        NewSnapshotClient original endpoint s = NewSnapshotClient original endpoint2 t)) ∧
    ((NewWithoutDefaults original endpoint s).2 = (original.NewWithoutDefaults endpoint s).2 ∧
      (NewWithoutDefaults original.traced endpoint (s, log)).2 =
        ((original.NewWithoutDefaults endpoint s).2, log ++ [CallRecord.mk "NewWithoutDefaults" [endpoint]]) ∧
      (original.NewWithoutDefaults endpoint s = original.NewWithoutDefaults endpoint2 t →
        NewWithoutDefaults original endpoint s = NewWithoutDefaults original endpoint2 t)) ∧
    ((PossibleAccessoryTypeValues original s).2 = (original.PossibleAccessoryTypeValues s).2 ∧
      (PossibleAccessoryTypeValues original.traced (s, log)).2 =
        ((original.PossibleAccessoryTypeValues s).2, log ++ [CallRecord.mk "PossibleAccessoryTypeValues" []]) ∧
      (original.PossibleAccessoryTypeValues s = original.PossibleAccessoryTypeValues t →
        PossibleAccessoryTypeValues original s = PossibleAccessoryTypeValues original t)) ∧
    ((PossibleAttributeTypeValues original s).2 = (original.PossibleAttributeTypeValues s).2 ∧
      (PossibleAttributeTypeValues original.traced (s, log)).2 =
        ((original.PossibleAttributeTypeValues s).2, log ++ [CallRecord.mk "PossibleAttributeTypeValues" []]) ∧
      (original.PossibleAttributeTypeValues s = original.PossibleAttributeTypeValues t →
        PossibleAttributeTypeValues original s = PossibleAttributeTypeValues original t)) ∧
    ((PossibleBlurLevelValues original s).2 = (original.PossibleBlurLevelValues s).2 ∧
      (PossibleBlurLevelValues original.traced (s, log)).2 =
        ((original.PossibleBlurLevelValues s).2, log ++ [CallRecord.mk "PossibleBlurLevelValues" []]) ∧
      (original.PossibleBlurLevelValues s = original.PossibleBlurLevelValues t →
        PossibleBlurLevelValues original s = PossibleBlurLevelValues original t)) ∧
    ((PossibleExposureLevelValues original s).2 = (original.PossibleExposureLevelValues s).2 ∧
      (PossibleExposureLevelValues original.traced (s, log)).2 =
        ((original.PossibleExposureLevelValues s).2, log ++ [CallRecord.mk "PossibleExposureLevelValues" []]) ∧
      (original.PossibleExposureLevelValues s = original.PossibleExposureLevelValues t →
        PossibleExposureLevelValues original s = PossibleExposureLevelValues original t)) ∧
    ((PossibleFindSimilarMatchModeValues original s).2 = (original.PossibleFindSimilarMatchModeValues s).2 ∧
      (PossibleFindSimilarMatchModeValues original.traced (s, log)).2 =
        ((original.PossibleFindSimilarMatchModeValues s).2, log ++ [CallRecord.mk "PossibleFindSimilarMatchModeValues" []]) ∧
      (original.PossibleFindSimilarMatchModeValues s = original.PossibleFindSimilarMatchModeValues t →
        PossibleFindSimilarMatchModeValues original s = PossibleFindSimilarMatchModeValues original t)) ∧
    ((PossibleGenderValues original s).2 = (original.PossibleGenderValues s).2 ∧
      (PossibleGenderValues original.traced (s, log)).2 =
        ((original.PossibleGenderValues s).2, log ++ [CallRecord.mk "PossibleGenderValues" []]) ∧
      (original.PossibleGenderValues s = original.PossibleGenderValues t →
        PossibleGenderValues original s = PossibleGenderValues original t)) ∧
    ((PossibleGlassesTypeValues original s).2 = (original.PossibleGlassesTypeValues s).2 ∧
      (PossibleGlassesTypeValues original.traced (s, log)).2 =
        ((original.PossibleGlassesTypeValues s).2, log ++ [CallRecord.mk "PossibleGlassesTypeValues" []]) ∧
      (original.PossibleGlassesTypeValues s = original.PossibleGlassesTypeValues t →
        PossibleGlassesTypeValues original s = PossibleGlassesTypeValues original t)) ∧
    ((PossibleHairColorTypeValues original s).2 = (original.PossibleHairColorTypeValues s).2 ∧
      (PossibleHairColorTypeValues original.traced (s, log)).2 =
        ((original.PossibleHairColorTypeValues s).2, log ++ [CallRecord.mk "PossibleHairColorTypeValues" []]) ∧
      (original.PossibleHairColorTypeValues s = original.PossibleHairColorTypeValues t →
        PossibleHairColorTypeValues original s = PossibleHairColorTypeValues original t)) ∧
    ((PossibleNoiseLevelValues original s).2 = (original.PossibleNoiseLevelValues s).2 ∧
      (PossibleNoiseLevelValues original.traced (s, log)).2 =
        ((original.PossibleNoiseLevelValues s).2, log ++ [CallRecord.mk "PossibleNoiseLevelValues" []]) ∧
      (original.PossibleNoiseLevelValues s = original.PossibleNoiseLevelValues t →
        PossibleNoiseLevelValues original s = PossibleNoiseLevelValues original t)) ∧
    ((PossibleOperationStatusTypeValues original s).2 = (original.PossibleOperationStatusTypeValues s).2 ∧
      (PossibleOperationStatusTypeValues original.traced (s, log)).2 =
        ((original.PossibleOperationStatusTypeValues s).2, log ++ [CallRecord.mk "PossibleOperationStatusTypeValues" []]) ∧
      (original.PossibleOperationStatusTypeValues s = original.PossibleOperationStatusTypeValues t →
        PossibleOperationStatusTypeValues original s = PossibleOperationStatusTypeValues original t)) ∧
    ((PossibleRecognitionModelValues original s).2 = (original.PossibleRecognitionModelValues s).2 ∧
      (PossibleRecognitionModelValues original.traced (s, log)).2 =
        ((original.PossibleRecognitionModelValues s).2, log ++ [CallRecord.mk "PossibleRecognitionModelValues" []]) ∧
      (original.PossibleRecognitionModelValues s = original.PossibleRecognitionModelValues t →
        PossibleRecognitionModelValues original s = PossibleRecognitionModelValues original t)) ∧
    ((PossibleSnapshotApplyModeValues original s).2 = (original.PossibleSnapshotApplyModeValues s).2 ∧
      (PossibleSnapshotApplyModeValues original.traced (s, log)).2 =
        ((original.PossibleSnapshotApplyModeValues s).2, log ++ [CallRecord.mk "PossibleSnapshotApplyModeValues" []]) ∧
      (original.PossibleSnapshotApplyModeValues s = original.PossibleSnapshotApplyModeValues t →
        PossibleSnapshotApplyModeValues original s = PossibleSnapshotApplyModeValues original t)) ∧
    ((PossibleSnapshotObjectTypeValues original s).2 = (original.PossibleSnapshotObjectTypeValues s).2 ∧
      (PossibleSnapshotObjectTypeValues original.traced (s, log)).2 =
        ((original.PossibleSnapshotObjectTypeValues s).2, log ++ [CallRecord.mk "PossibleSnapshotObjectTypeValues" []]) ∧
      (original.PossibleSnapshotObjectTypeValues s = original.PossibleSnapshotObjectTypeValues t →
        PossibleSnapshotObjectTypeValues original s = PossibleSnapshotObjectTypeValues original t)) ∧
    ((PossibleTrainingStatusTypeValues original s).2 = (original.PossibleTrainingStatusTypeValues s).2 ∧
      (PossibleTrainingStatusTypeValues original.traced (s, log)).2 =
        ((original.PossibleTrainingStatusTypeValues s).2, log ++ [CallRecord.mk "PossibleTrainingStatusTypeValues" []]) ∧
      (original.PossibleTrainingStatusTypeValues s = original.PossibleTrainingStatusTypeValues t →
        PossibleTrainingStatusTypeValues original s = PossibleTrainingStatusTypeValues original t)) :=
  ⟨⟨UserAgent_state original s, UserAgent_traced_state original s log,
      UserAgent_congr original s t⟩, ⟨rfl, rfl, id⟩, ⟨rfl, rfl, id⟩, ⟨rfl, rfl, id⟩, ⟨rfl, rfl, id⟩, ⟨rfl, rfl, id⟩,
    ⟨rfl, rfl, id⟩, ⟨rfl, rfl, id⟩, ⟨rfl, rfl, id⟩, ⟨rfl, rfl, id⟩, ⟨rfl, rfl, id⟩, ⟨rfl, rfl, id⟩,
    ⟨rfl, rfl, id⟩, ⟨rfl, rfl, id⟩, ⟨rfl, rfl, id⟩, ⟨rfl, rfl, id⟩, ⟨rfl, rfl, id⟩, ⟨rfl, rfl, id⟩,
    ⟨rfl, rfl, id⟩, ⟨rfl, rfl, id⟩, ⟨rfl, rfl, id⟩, ⟨rfl, rfl, id⟩, ⟨rfl, rfl, id⟩, ⟨rfl, rfl, id⟩,
    ⟨rfl, rfl, id⟩, ⟨rfl, rfl, id⟩⟩

/-- C9 at the sample package, whose state counts the wrapped calls: `UserAgent`
from state 0 ends in state 1, and the log holds the one call. -/
theorem no_state_no_side_effect_witness :
    (UserAgent (sample true) 0).2 = 1 ∧
    (UserAgent (sample true).traced (0, [])).2 = (1, [CallRecord.mk "UserAgent" []]) ∧
    UserAgent (sample true) 0 = UserAgent (sample true) 0 :=
  ⟨(no_state_no_side_effect (sample true) "https://example.cognitiveservices.azure.com" "https://example.cognitiveservices.azure.com" 0 0 []).1.1,
    (no_state_no_side_effect (sample true) "https://example.cognitiveservices.azure.com" "https://example.cognitiveservices.azure.com" 0 0 []).1.2.1,
    (no_state_no_side_effect (sample true) "https://example.cognitiveservices.azure.com" "https://example.cognitiveservices.azure.com" 0 0 []).1.2.2 rfl⟩

/-! ## C10: shape of the `UserAgent` result -/

/-- C10: let the wrapped `UserAgent()` return `u` (and, for a second package or
state, `v`). The re-exported call returns some `r` (and `q`) with: `r` is not
empty and not `u`; its length is that of `u` plus 16, in characters and in bytes;
`r` ends with `" profiles/latest"`; if `u` is empty `r` is the tag alone, and if
`u` already ends with the tag, the tag appears twice; `r = q` implies `u = v`;
and `u` is `r` without its last 16 characters. -/
theorem UserAgent_result_shape {σ ε σ2 ε2 : Type} (original : Original σ ε)
    (original2 : Original σ2 ε2) (s s1 : σ) (t t1 : σ2) (u v : String)
    (hu : original.UserAgent s = (Except.ok u, s1))
    (hv : original2.UserAgent t = (Except.ok v, t1)) :
    ∃ r q : String,
      UserAgent original s = (Except.ok r, s1) ∧
      UserAgent original2 t = (Except.ok q, t1) ∧
      r ≠ "" ∧
      r ≠ u ∧
      r.length = u.length + 16 ∧
      r.utf8ByteSize = u.utf8ByteSize + 16 ∧
      " profiles/latest".data <:+ r.data ∧
      (u = "" → r = " profiles/latest") ∧
      (∀ w : String, u = w ++ " profiles/latest" →
        r = w ++ " profiles/latest" ++ " profiles/latest") ∧
      (r = q → u = v) ∧
      r.take (r.length - 16) = u := by
  have hlen : (u ++ " profiles/latest").length = u.length + 16 := by
    rw [String.length_append]
    rfl
  refine ⟨u ++ " profiles/latest", v ++ " profiles/latest",
    UserAgent_of_returns original s s1 u hu, UserAgent_of_returns original2 t t1 v hv,
    ?_, ?_, hlen, ?_, ⟨u.data, rfl⟩, ?_, ?_, ?_, ?_⟩
  · intro h
    have h2 := congrArg String.length h
    rw [hlen] at h2
    exact absurd h2 (Nat.succ_ne_zero _)
  · intro h
    have h2 := congrArg String.length h
    rw [hlen] at h2
    omega
  · show String.utf8ByteSize ⟨u.data ++ " profiles/latest".data⟩ = _
    rw [String.utf8ByteSize_mk, String.utf8Len_append]
    rfl
  · intro h
    rw [h]
    rfl
  · intro w h
    rw [h]
  · intro h
    have h2 := congrArg String.data h
    rw [profile_suffix_data, profile_suffix_data] at h2
    exact String.ext (List.append_cancel_right h2)
  · rw [String.take_eq, hlen, Nat.add_sub_cancel, profile_suffix_data]
    show String.mk (List.take u.data.length _) = u
    rw [List.take_left]

/-- C10 at the sample package and at a copy of it whose wrapped user agent is
empty: the results are the tagged value and the tag alone. -/
theorem UserAgent_result_shape_witness :
    ∃ r q : String,
      UserAgent (sample true) 0 = (Except.ok r, 1) ∧
      UserAgent { sample true with UserAgent := sampleCall true "" } 7 = (Except.ok q, 8) ∧
      r = "Azure-SDK-For-Go face/1.0 profiles/latest" ∧
      q = " profiles/latest" ∧
      r.length = 41 ∧
      r.take (r.length - 16) = "Azure-SDK-For-Go face/1.0" := by
  obtain ⟨r, q, hr, hq, -, -, hlen, -, -, -, -, -, htake⟩ :=
    UserAgent_result_shape (sample true) { sample true with UserAgent := sampleCall true "" }
      0 1 7 8 "Azure-SDK-For-Go face/1.0" "" rfl rfl
  have hr2 : r = "Azure-SDK-For-Go face/1.0 profiles/latest" := by
    have h : UserAgent (sample true) 0 =
        (Except.ok "Azure-SDK-For-Go face/1.0 profiles/latest", 1) := rfl
    rw [hr] at h
    injection h with h1 _
    injection h1
  have hq2 : q = " profiles/latest" := by
    have h : UserAgent { sample true with UserAgent := sampleCall true "" } 7 =
        (Except.ok " profiles/latest", 8) := rfl
    rw [hq] at h
    injection h with h1 _
    injection h1
  exact ⟨r, q, hr, hq, hr2, hq2, hlen, htake⟩

end face
